import Mathlib

/-!
# workisready-backend: the request authenticator and the task and provider routes

A shallow embedding of `src/middleware/auth.js`, of the handlers `PUT /:id` and
`DELETE /:id` of `src/routes/taskRoutes.js`, of the handlers `POST /` and
`POST /:id/review` of `src/routes/providerRoutes.js` and of the method `calculateRating`
of `src/models/Providers.js`.

The middleware talks to two collaborators that are not part of the repository source:
`jwt.verify` (the token verification library) and `User.findById(..).select('-password')`
(the user-record store).  Both are taken as parameters of the run (`Env`), each returning
either a value or a thrown error.  Every observable action of the middleware
(a call to a collaborator, a write to `req.user`, a call to `next`, a response sent through
`res.status(..).json(..)`) is recorded, in order, in the event list of the run.
Console output is not modelled.

The route handlers are functions from a world (the two collections and the log of the
files handed to `fs.unlink`) and a request to a world and a response; what the libraries
decide (`JSON.parse`, whether a query, a save or a delete throws) is a parameter (`Lib`).
-/

namespace WorkIsReady

/-! ## JavaScript strings -/

/-- `String.prototype.replace` with a string pattern, on character lists: the first
occurrence of `pat` (scanning from the left) is replaced by `rep`, the rest is kept. -/
def replaceChars (pat rep : List Char) : List Char -> List Char
  | [] => if pat = [] then rep else []
  | c :: cs =>
    if pat.isPrefixOf (c :: cs) then rep ++ (c :: cs).drop pat.length
    else c :: replaceChars pat rep cs

/-- `s.replace(pat, rep)` for string arguments (`rep` without `$` patterns). -/
def replace (s pat rep : String) : String :=
  String.mk (replaceChars pat.data rep.data s.data)

/-! ## Data model -/

/-- A thrown JavaScript error, as far as the middleware inspects it. -/
structure JsError where
  name : String
  message : String
deriving DecidableEq, Repr

deriving instance DecidableEq for Except

/-- The payload returned by `jwt.verify`; `id` is `none` when the payload has no `id`. -/
structure Decoded where
  id : Option String
deriving DecidableEq, Repr

/-- What `res.status(status).json({ success, message })` sends. -/
structure Response where
  status : Nat
  success : Bool
  message : String
deriving DecidableEq, Repr

/-- The observable actions of one run of the middleware. -/
inductive Event (U : Type) where
  | verify (token : String) (secret : Option String)
  | findById (id : Option String)
  | setUser (user : U)
  | next
  | respond (r : Response)
deriving DecidableEq, Repr

/-- The part of the request object the middleware reads and writes:
`req.header('Authorization')` (`none` is `undefined`) and `req.user`. -/
structure Request (U : Type) where
  authorization : Option String
  user : Option U
deriving DecidableEq, Repr

/-- The collaborators of the middleware: `process.env.JWT_SECRET`, `jwt.verify` and
`User.findById(id).select('-password')` (awaited); `Except.error` is a thrown error. -/
structure Env (U : Type) where
  JWT_SECRET : Option String
  verify : String -> Option String -> Except JsError Decoded
  findById : Option String -> Except JsError (Option U)

/-- The state threaded through a run: the request object and the events so far. -/
structure Run (U : Type) where
  req : Request U
  events : List (Event U)
deriving DecidableEq, Repr

namespace Run

variable {U : Type}

/-- Appends an event to the run. -/
def emit (st : Run U) (e : Event U) : Run U :=
  { st with events := st.events ++ [e] }

/-- Sends a response: `res.status(r.status).json({ success, message })`. -/
def respond (st : Run U) (r : Response) : Run U :=
  st.emit (.respond r)

/-- Assignment `req.user = user`. -/
def setUser (st : Run U) (user : U) : Run U :=
  { req := { st.req with user := some user }, events := st.events ++ [.setUser user] }

/-- The responses sent during the run, in order. -/
def responses (st : Run U) : List Response :=
  st.events.filterMap fun
    | .respond r => some r
    | _ => none

/-- The tokens handed to `jwt.verify` during the run. -/
def verifyCalls (st : Run U) : List String :=
  st.events.filterMap fun
    | .verify t _ => some t
    | _ => none

/-- The identifiers handed to `User.findById` during the run. -/
def lookupCalls (st : Run U) : List (Option String) :=
  st.events.filterMap fun
    | .findById i => some i
    | _ => none

/-- The values written to `req.user` during the run. -/
def userWrites (st : Run U) : List U :=
  st.events.filterMap fun
    | .setUser u => some u
    | _ => none

/-- How many times `next()` was called during the run. -/
def nextCalls (st : Run U) : Nat :=
  (st.events.filter fun
    | .next => true
    | _ => false).length

end Run

/-! ## The middleware -/

/-- JavaScript truthiness of `token` (line 11, `!token`): `undefined` and the empty
string are falsy, every other string is truthy. -/
def truthy : Option String -> Bool
  | none => false
  | some t => t != ""

/-- The response of lines 12-15. -/
def noTokenResponse : Response :=
  Response.mk 401 false "No token provided, authorization denied"

/-- The response of lines 26-29. -/
def userNotFoundResponse : Response :=
  Response.mk 401 false "Token is not valid - user not found"

/-- The response of lines 41-44. -/
def invalidTokenResponse : Response :=
  Response.mk 401 false "Invalid token"

/-- The response of lines 48-51. -/
def tokenExpiredResponse : Response :=
  Response.mk 401 false "Token expired"

/-- The response of lines 54-57. -/
def serverErrorResponse : Response :=
  Response.mk 500 false "Server error in authentication"

/-- The token of line 7: `req.header('Authorization')?.replace('Bearer ', '')`. -/
def extractToken {U : Type} (req : Request U) : Option String :=
  req.authorization.map fun h => replace h "Bearer " ""

/-- The `catch (error)` block, lines 37-58. -/
def onError {U : Type} (error : JsError) (st : Run U) : Run U :=
  if error.name = "JsonWebTokenError" then st.respond invalidTokenResponse
  else if error.name = "TokenExpiredError" then st.respond tokenExpiredResponse
  else st.respond serverErrorResponse

/-- The middleware `auth(req, res, next)`, lines 4-59. -/
def auth {U : Type} (env : Env U) (req : Request U) : Run U :=
  let st : Run U := Run.mk req []
  let token := extractToken req
  if !truthy token then st.respond noTokenResponse
  else
    let t := token.getD ""
    let st := st.emit (.verify t env.JWT_SECRET)
    match env.verify t env.JWT_SECRET with
    | .error error => onError error st
    | .ok decoded =>
      let st := st.emit (.findById decoded.id)
      match env.findById decoded.id with
      | .error error => onError error st
      | .ok none => st.respond userNotFoundResponse
      | .ok (some user) => (st.setUser user).emit .next

/-! ## Vocabulary of the statements -/

/-- `s.startsWith(p)`: used in statements only, the middleware never calls it. -/
def startsWith (s p : String) : Bool :=
  p.data.isPrefixOf s.data

/-- No token: the header is absent, or the token extracted from it is empty. -/
def NoToken {U : Type} (req : Request U) : Prop :=
  extractToken req = none \/ extractToken req = some ""

/-- The error `e` is thrown inside the `try` block: by `jwt.verify` on the non-empty
extracted token, or by the lookup of the identifier of the verified payload. -/
def Throws {U : Type} (env : Env U) (req : Request U) (e : JsError) : Prop :=
  exists t, extractToken req = some t /\ Not (t = "") /\
    (env.verify t env.JWT_SECRET = .error e \/
      exists d, env.verify t env.JWT_SECRET = .ok d /\ env.findById d.id = .error e)

/-- Principal not found: the non-empty extracted token verifies and the lookup of its
identifier returns null. -/
def PrincipalNotFound {U : Type} (env : Env U) (req : Request U) : Prop :=
  exists t d, extractToken req = some t /\ Not (t = "") /\
    env.verify t env.JWT_SECRET = .ok d /\ env.findById d.id = .ok none

/-! ## A concrete environment for evaluating runs -/

/-- A user record as returned by the lookup (password already excluded). -/
structure UserRecord where
  id : String
  email : String
deriving DecidableEq, Repr

/-- A sample verifier: three tokens verify, one is expired, one is not yet active,
everything else has a bad signature. -/
def sampleVerify (token : String) (_secret : Option String) : Except JsError Decoded :=
  if token = "good" then .ok (Decoded.mk (some "u1"))
  else if token = "ghost" then .ok (Decoded.mk (some "u404"))
  else if token = "odd" then .ok (Decoded.mk (some "not-an-object-id"))
  else if token = "expired" then .error (JsError.mk "TokenExpiredError" "jwt expired")
  else if token = "early" then .error (JsError.mk "NotBeforeError" "jwt not active")
  else .error (JsError.mk "JsonWebTokenError" "invalid signature")

/-- A sample store with the single record `u1`; one identifier makes the lookup throw. -/
def sampleFindById (id : Option String) : Except JsError (Option UserRecord) :=
  if id = some "u1" then .ok (some (UserRecord.mk "u1" "a@b.com"))
  else if id = some "not-an-object-id" then
    .error (JsError.mk "CastError" "Cast to ObjectId failed")
  else .ok none

/-- The sample environment. -/
def sampleEnv : Env UserRecord :=
  Env.mk (some "s3cret") sampleVerify sampleFindById

/-- A request carrying the given header and no principal. -/
def requestWith (header : Option String) : Request UserRecord :=
  Request.mk header none

/-! ## JavaScript values in the route handlers

The route handlers read request fields that may hold any JSON value.  A finite Number
is given by its exact value; arithmetic on Numbers rounds as IEEE doubles do and is a
parameter (`Lib.add`, `Lib.div`).  The schema casts of `models/Task.js` are modelled
(`castTask`): a value of the declared type is kept, the title is trimmed, and what the
cast makes of any other value is a parameter (`Lib`). -/

/-- A JavaScript value, as far as the handlers inspect it; `object ref` stands for an
object or array, known by its reference: what it holds is known to the library only. -/
inductive JsValue where
  | undefined
  | null
  | bool (b : Bool)
  | num (q : Rat)
  | str (s : String)
  | object (ref : Nat)
deriving DecidableEq, Repr

namespace JsValue

/-- JavaScript truthiness. -/
def truthy : JsValue -> Bool
  | undefined => false
  | null => false
  | bool b => b
  | num q => q != 0
  | str s => s != ""
  | object _ => true

/-- The operator `a || b`. -/
def or (a b : JsValue) : JsValue :=
  if a.truthy then a else b

/-- The comparison `SameValueZero` used by `Array.prototype.includes`: equal primitive
values, or the same object. -/
def sameValueZero (a b : JsValue) : Bool :=
  a == b

end JsValue

/-- The result of `JSON.parse`: a primitive value, an array or an object. -/
inductive Parsed where
  | value (v : JsValue)
  | array (items : List JsValue)
  | object (fields : List (Prod String JsValue))
deriving DecidableEq, Repr

/-- A `Date`: one read from the store, or `new Date(v)` built from a request value. -/
inductive JsDate where
  | stored (iso : String)
  | ofValue (v : JsValue)
deriving DecidableEq, Repr

/-! ## Documents -/

/-- Modelled from the spec: the User model (`models/User.js`) is not among the sources.
A principal is its identifier and its e-mail address; `_id` is the hexadecimal string of
the ObjectId. -/
structure User where
  _id : String
  email : String
deriving DecidableEq, Repr

/-- Modelled from the spec: `user.id`, the string form of `_id` that every Mongoose
document offers. -/
def User.id (u : User) : String :=
  u._id

/-- The `budget` of a task (`models/Task.js`, lines 81-92). -/
structure Budget where
  min : JsValue
  max : JsValue
deriving DecidableEq, Repr

/-- The `contact` of a task (`models/Task.js`, lines 93-102). -/
structure Contact where
  phone : JsValue
  additionalContact : JsValue
deriving DecidableEq, Repr

/-- A task document (`models/Task.js`); `clientId` is the hexadecimal string of the
owner's ObjectId.  The timestamps are left out. -/
structure Task where
  _id : String
  title : JsValue
  category : JsValue
  description : JsValue
  location : JsValue
  dueDate : JsDate
  budget : Budget
  contact : Contact
  images : List JsValue
  clientId : String
  status : String
deriving DecidableEq, Repr

/-- A review inside a provider document (`models/Providers.js`, lines 32-40); `rating` is
the Number the schema casts the submitted rating to.  The `date` is left out. -/
structure Review where
  userId : String
  name : String
  rating : Rat
  comment : JsValue
deriving DecidableEq, Repr

/-- A provider document (`models/Providers.js`).  The timestamps are left out. -/
structure Provider where
  _id : String
  userId : String
  fullName : JsValue
  category : JsValue
  location : JsValue
  rate : JsValue
  contact : JsValue
  email : JsValue
  bio : JsValue
  organizationType : JsValue
  skills : Parsed
  profilePic : JsValue
  idCard : JsValue
  sampleWork : List String
  paymentMethods : Parsed
  reviews : List Review
  averageRating : Rat
deriving DecidableEq, Repr

/-! ## The world around the handlers -/

/-- The state the handlers act on: the two collections and the log of the files that
`fs.unlink` was asked to delete (names below `uploads/tasks`, in order). -/
structure World where
  tasks : List Task
  providers : List Provider
  unlinked : List String
deriving DecidableEq, Repr

/-- The library behaviour the handlers depend on and the sources do not fix:
`JSON.parse`, the errors a query, a save or a delete may throw (`none`: it goes through),
the TypeError the engine throws for a failing operation, the string the engine converts
a value to, the `_id` given to a new document, `String.prototype.trim`, what the schema
casts make of a value that is not of the declared type (`none`: the cast fails), the
error `save` throws for a document with a failed cast, and the sum and the quotient of
two Numbers as the engine rounds them. -/
structure Lib where
  parse : JsValue -> Except JsError Parsed
  toString : JsValue -> String
  queryError : String -> Option JsError
  saveTaskError : Task -> Option JsError
  deleteTaskError : Task -> Option JsError
  saveProviderError : Provider -> Option JsError
  typeError : String -> JsError
  newObjectId : String
  trim : String -> String
  castString : JsValue -> Option JsValue
  castTitle : JsValue -> Option JsValue
  castNumber : JsValue -> Option JsValue
  castDate : JsValue -> Option JsDate
  validationError : Task -> JsError
  add : Rat -> Rat -> Rat
  div : Rat -> Rat -> Rat

/-- The body of a task route response: `res.status(status).json({ success, message, task })`. -/
structure TaskResponse where
  status : Nat
  success : Bool
  message : String
  task : Option Task
deriving DecidableEq, Repr

/-- The body of a provider route response. -/
structure ProviderResponse where
  status : Nat
  success : Bool
  message : String
  provider : Option Provider
deriving DecidableEq, Repr

/-! ## Task routes (`routes/taskRoutes.js`) -/

/-- `Task.findById(id)`: the first task with that `_id`, `null` when there is none. -/
def Task.findById (lib : Lib) (w : World) (id : String) : Except JsError (Option Task) :=
  match lib.queryError id with
  | some e => .error e
  | none => .ok (w.tasks.find? fun t => t._id == id)

/-- The fields of `req.body` read by `PUT /:id` (lines 132-141); an absent field is
`undefined`. -/
structure UpdateBody where
  title : JsValue
  category : JsValue
  description : JsValue
  location : JsValue
  dueDate : JsValue
  budget : JsValue
  contact : JsValue
  existingImages : JsValue
deriving DecidableEq, Repr

/-- The request of `PUT /:id` after `auth` and the upload middleware: `req.params.id`,
`req.user`, `req.body` and the file names of `req.files` (`none`: no `req.files`). -/
structure PutRequest where
  id : String
  user : User
  body : UpdateBody
  files : Option (List String)
deriving DecidableEq, Repr

/-- The request of `DELETE /:id` after `auth`. -/
structure DeleteRequest where
  id : String
  user : User
deriving DecidableEq, Repr

/-- The pattern `x ? JSON.parse(x) : fallback` of lines 144-146. -/
def parseOr (lib : Lib) (x : JsValue) (fallback : Parsed) : Except JsError Parsed :=
  if x.truthy then lib.parse x else .ok fallback

/-- Reading a property that no prototype defines (`min`, `max`, `phone`,
`additionalContact`) from a parsed value: `null` throws, an object yields the field or
`undefined`, everything else yields `undefined`. -/
def Parsed.get (lib : Lib) (p : Parsed) (key : String) : Except JsError JsValue :=
  match p with
  | .value .null => .error (lib.typeError ("read " ++ key ++ " of null"))
  | .value .undefined => .error (lib.typeError ("read " ++ key ++ " of undefined"))
  | .value _ => .ok .undefined
  | .array _ => .ok .undefined
  | .object fields => .ok ((fields.lookup key).getD .undefined)

/-- Whether the character list `pat` occurs in `s`. -/
def includesChars (pat : List Char) : List Char -> Bool
  | [] => pat.isEmpty
  | c :: cs => pat.isPrefixOf (c :: cs) || includesChars pat cs

/-- The call `parsedExistingImages.includes(img)` of line 150: membership for an array,
substring test for a string (a search value that is not a string is converted to one
first), a TypeError for anything else. -/
def Parsed.includes (lib : Lib) (p : Parsed) (img : JsValue) : Except JsError Bool :=
  match p with
  | .array items => .ok (items.any fun x => x.sameValueZero img)
  | .value (.str s) =>
    match img with
    | .str i => .ok (includesChars i.data s.data)
    | other => .ok (includesChars (lib.toString other).data s.data)
  | _ => .error (lib.typeError "includes is not a function")

/-- The images to remove, line 150:
`task.images.filter((img) => !parsedExistingImages.includes(img))`. -/
def removedImages (lib : Lib) (p : Parsed) : List JsValue -> Except JsError (List JsValue)
  | [] => .ok []
  | img :: rest =>
    match p.includes lib img with
    | .error e => .error e
    | .ok present =>
      match removedImages lib p rest with
      | .error e => .error e
      | .ok removed => .ok (if present then removed else img :: removed)

/-- The loop of lines 152-160: every image name is handed to `fs.unlink`, whose own
failure is caught inside the loop; `path.join` throws on a name that is not a string.
Returns the names handed to `fs.unlink` and the error that ended the loop, if any. -/
def unlinkLoop (lib : Lib) : List JsValue -> Prod (List String) (Option JsError)
  | [] => ([], none)
  | .str name :: rest =>
    let r := unlinkLoop lib rest
    (name :: r.1, r.2)
  | _ :: _ => ([], some (lib.typeError "path must be a string"))

/-- The spread `...parsedExistingImages` of line 182: the items of an array, the
characters of a string, a TypeError for anything else. -/
def Parsed.spread (lib : Lib) (p : Parsed) : Except JsError (List JsValue) :=
  match p with
  | .array items => .ok items
  | .value (.str s) => .ok (s.data.map fun c => JsValue.str (String.singleton c))
  | _ => .error (lib.typeError "not iterable")

/-- The values assigned in lines 166-179, before the schema casts them. -/
def assignFields (lib : Lib) (task : Task) (body : UpdateBody)
    (parsedBudget parsedContact : Parsed) : Except JsError Task :=
  let task := { task with title := body.title.or task.title }
  let task := { task with category := body.category.or task.category }
  let task := { task with description := body.description.or task.description }
  let task := { task with location := body.location.or task.location }
  let task := { task with
    dueDate := if body.dueDate.truthy then JsDate.ofValue body.dueDate else task.dueDate }
  match parsedBudget.get lib "min" with
  | .error e => .error e
  | .ok min =>
    match parsedBudget.get lib "max" with
    | .error e => .error e
    | .ok max =>
      let task := { task with
        budget := Budget.mk (min.or task.budget.min) (max.or task.budget.max) }
      match parsedContact.get lib "phone" with
      | .error e => .error e
      | .ok phone =>
        match parsedContact.get lib "additionalContact" with
        | .error e => .error e
        | .ok additionalContact =>
          .ok { task with
            contact := Contact.mk (phone.or task.contact.phone)
              (additionalContact.or task.contact.additionalContact) }

/-- The cast of a `String` path (`models/Task.js`: category, description, location, the
contact fields, each image): a string is kept. -/
def castStringPath (lib : Lib) : JsValue -> Option JsValue
  | .str s => some (.str s)
  | v => lib.castString v

/-- The cast of the `title` path (`models/Task.js`, lines 4-9: `String` with
`trim: true`): a string is trimmed. -/
def castTitlePath (lib : Lib) : JsValue -> Option JsValue
  | .str s => some (.str (lib.trim s))
  | v => lib.castTitle v

/-- The cast of a `Number` path (`models/Task.js`, lines 81-92): a number is kept. -/
def castNumberPath (lib : Lib) : JsValue -> Option JsValue
  | .num q => some (.num q)
  | v => lib.castNumber v

/-- The cast of the `dueDate` path: a date read from the store is kept. -/
def castDatePath (lib : Lib) : JsDate -> Option JsDate
  | .stored iso => some (.stored iso)
  | .ofValue v => lib.castDate v

/-- The cast of the `images` path (`models/Task.js`, lines 103-105: `[String]`), entry by
entry. -/
def castImages (lib : Lib) : List JsValue -> Option (List JsValue)
  | [] => some []
  | x :: xs =>
    match castStringPath lib x with
    | none => none
    | some y =>
      match castImages lib xs with
      | none => none
      | some ys => some (y :: ys)

/-- The document Mongoose holds after the assignments of lines 166-182, every assigned
value cast to the type its path has in `models/Task.js`; `none` when a cast fails. -/
def castTask (lib : Lib) (task : Task) : Option Task :=
  match castTitlePath lib task.title, castStringPath lib task.category,
    castStringPath lib task.description, castStringPath lib task.location,
    castDatePath lib task.dueDate, castNumberPath lib task.budget.min,
    castNumberPath lib task.budget.max, castStringPath lib task.contact.phone,
    castStringPath lib task.contact.additionalContact, castImages lib task.images with
  | some title, some category, some description, some location, some dueDate, some min,
    some max, some phone, some additionalContact, some images =>
    some
      { _id := task._id
        title := title
        category := category
        description := description
        location := location
        dueDate := dueDate
        budget := Budget.mk min max
        contact := Contact.mk phone additionalContact
        images := images
        clientId := task.clientId
        status := task.status }
  | _, _, _, _, _, _, _, _, _, _ => none

/-- What `task.save()` does to the collection when it goes through. -/
def World.saveTask (w : World) (task : Task) : World :=
  { w with tasks := w.tasks.map fun t => if t._id = task._id then task else t }

/-- What `task.deleteOne()` does to the collection when it goes through. -/
def World.deleteTask (w : World) (task : Task) : World :=
  { w with tasks := w.tasks.filter fun t => t._id != task._id }

/-- The `try` block of `PUT /:id`, lines 118-191: the world it leaves and the response it
sends or the error it throws.  `task.save()` rejects a document with a failed cast and any
document the validators or the store reject; otherwise the cast document is stored and
returned. -/
def tryPutTask (lib : Lib) (w : World) (req : PutRequest) :
    Prod World (Except JsError TaskResponse) :=
  match Task.findById lib w req.id with
  | .error e => (w, .error e)
  | .ok none => (w, .ok (TaskResponse.mk 404 false "Task not found" none))
  | .ok (some task) =>
    if task.clientId != req.user.id then
      (w, .ok (TaskResponse.mk 403 false "Unauthorized to edit this task" none))
    else
      match parseOr lib req.body.budget (.object []) with
      | .error e => (w, .error e)
      | .ok parsedBudget =>
        match parseOr lib req.body.contact (.object []) with
        | .error e => (w, .error e)
        | .ok parsedContact =>
          match parseOr lib req.body.existingImages (.array []) with
          | .error e => (w, .error e)
          | .ok parsedExistingImages =>
            match removedImages lib parsedExistingImages task.images with
            | .error e => (w, .error e)
            | .ok removed =>
              let w := { w with unlinked := w.unlinked ++ (unlinkLoop lib removed).1 }
              match (unlinkLoop lib removed).2 with
              | some e => (w, .error e)
              | none =>
                let newUploadedImages := (req.files.getD []).map JsValue.str
                match assignFields lib task req.body parsedBudget parsedContact with
                | .error e => (w, .error e)
                | .ok task =>
                  match parsedExistingImages.spread lib with
                  | .error e => (w, .error e)
                  | .ok existing =>
                    let task := { task with images := existing ++ newUploadedImages }
                    match castTask lib task with
                    | none => (w, .error (lib.validationError task))
                    | some task =>
                      match lib.saveTaskError task with
                      | some e => (w, .error e)
                      | none =>
                        (w.saveTask task,
                          .ok (TaskResponse.mk 200 true "Task updated successfully"
                            (some task)))

/-- The handler of `PUT /:id`, lines 117-199. -/
def putTask (lib : Lib) (w : World) (req : PutRequest) : Prod World TaskResponse :=
  match tryPutTask lib w req with
  | (w, .ok r) => (w, r)
  | (w, .error error) =>
    (w, TaskResponse.mk 500 false ("Server error: " ++ error.message) none)

/-- The `try` block of `DELETE /:id`, lines 205-221. -/
def tryDeleteTask (lib : Lib) (w : World) (req : DeleteRequest) :
    Prod World (Except JsError TaskResponse) :=
  match Task.findById lib w req.id with
  | .error e => (w, .error e)
  | .ok none => (w, .ok (TaskResponse.mk 404 false "Task not found" none))
  | .ok (some task) =>
    if task.clientId != req.user.id then
      (w, .ok (TaskResponse.mk 403 false "Unauthorized to delete this task" none))
    else
      match lib.deleteTaskError task with
      | some e => (w, .error e)
      | none =>
        (w.deleteTask task,
          .ok (TaskResponse.mk 200 true "Task deleted successfully" none))

/-- The handler of `DELETE /:id`, lines 204-226. -/
def deleteTask (lib : Lib) (w : World) (req : DeleteRequest) : Prod World TaskResponse :=
  match tryDeleteTask lib w req with
  | (w, .ok r) => (w, r)
  | (w, .error error) =>
    (w, TaskResponse.mk 500 false ("Server error: " ++ error.message) none)

/-! ## Provider model and routes (`models/Providers.js`, `routes/providerRoutes.js`) -/

/-- The method `calculateRating`, `models/Providers.js` lines 48-56; `+` and `/` are the
engine's rounded operations on Numbers. -/
def Provider.calculateRating (lib : Lib) (p : Provider) : Provider :=
  if p.reviews.length = 0 then { p with averageRating := 0 }
  else
    let total := p.reviews.foldl (fun sum r => lib.add sum r.rating) 0
    { p with averageRating := lib.div total p.reviews.length }

/-- `Provider.findOne({ userId })`: the first provider of that user, `null` when there is
none. -/
def Provider.findOne (lib : Lib) (w : World) (userId : String) :
    Except JsError (Option Provider) :=
  match lib.queryError userId with
  | some e => .error e
  | none => .ok (w.providers.find? fun p => p.userId == userId)

/-- `Provider.findById(id)`: the first provider with that `_id`, `null` when there is
none. -/
def Provider.findById (lib : Lib) (w : World) (id : String) :
    Except JsError (Option Provider) :=
  match lib.queryError id with
  | some e => .error e
  | none => .ok (w.providers.find? fun p => p._id == id)

/-- What `provider.save()` does to the collection when it goes through, for a document
read from the collection. -/
def World.saveProvider (w : World) (provider : Provider) : World :=
  { w with providers := w.providers.map fun p => if p._id = provider._id then provider else p }

/-- What `provider.save()` does to the collection when it goes through, for a document
made with `new Provider`. -/
def World.insertProvider (w : World) (provider : Provider) : World :=
  { w with providers := w.providers ++ [provider] }

/-- The fields of `req.body` read by `POST /` (lines 48-58). -/
structure RegisterBody where
  fullName : JsValue
  category : JsValue
  location : JsValue
  contact : JsValue
  email : JsValue
  bio : JsValue
  organizationType : JsValue
  skills : JsValue
  paymentMethods : JsValue
deriving DecidableEq, Repr

/-- The paths of the uploaded files of `POST /`, one list per form field (`none`: the
field carries no file). -/
structure RegisterFiles where
  profilePic : Option (List String)
  idCard : Option (List String)
  sampleWork : Option (List String)
deriving DecidableEq, Repr

/-- The request of `POST /` after `auth` and the upload middleware (`files` is `none`
when there is no `req.files`). -/
structure RegisterRequest where
  user : User
  body : RegisterBody
  files : Option RegisterFiles
deriving DecidableEq, Repr

/-- The expression `req.files?.field?.[0]?.path || ""` of lines 71-72. -/
def firstPathOr (paths : Option (List String)) : JsValue :=
  (match paths.bind List.head? with
    | some path => JsValue.str path
    | none => JsValue.undefined).or (.str "")

/-- A schema default: it replaces an `undefined` value. -/
def withDefault (v : JsValue) (dflt : JsValue) : JsValue :=
  if v = .undefined then dflt else v

/-- The `try` block of `POST /`, lines 36-82. -/
def tryRegisterProvider (lib : Lib) (w : World) (req : RegisterRequest) :
    Prod World (Except JsError ProviderResponse) :=
  let userId := req.user._id
  match Provider.findOne lib w userId with
  | .error e => (w, .error e)
  | .ok (some _) =>
    (w, .ok (ProviderResponse.mk 400 false "You have already registered as a provider."
      none))
  | .ok none =>
    match lib.parse (req.body.skills.or (.str "[]")) with
    | .error e => (w, .error e)
    | .ok skills =>
      match lib.parse (req.body.paymentMethods.or (.str "[]")) with
      | .error e => (w, .error e)
      | .ok paymentMethods =>
        let provider : Provider :=
          { _id := lib.newObjectId
            userId := userId
            fullName := req.body.fullName
            category := withDefault req.body.category (.str "")
            location := req.body.location
            rate := .num 0
            contact := req.body.contact
            email := req.body.email
            bio := req.body.bio
            organizationType := withDefault req.body.organizationType (.str "individual")
            skills := skills
            profilePic := firstPathOr (req.files.bind fun f => f.profilePic)
            idCard := firstPathOr (req.files.bind fun f => f.idCard)
            sampleWork := (req.files.bind fun f => f.sampleWork).getD []
            paymentMethods := paymentMethods
            reviews := []
            averageRating := 0 }
        match lib.saveProviderError provider with
        | some e => (w, .error e)
        | none =>
          (w.insertProvider provider,
            .ok (ProviderResponse.mk 201 true
              "Provider registration submitted successfully!" (some provider)))

/-- The handler of `POST /`, lines 27-91. -/
def registerProvider (lib : Lib) (w : World) (req : RegisterRequest) :
    Prod World ProviderResponse :=
  match tryRegisterProvider lib w req with
  | (w, .ok r) => (w, r)
  | (w, .error error) =>
    (w, ProviderResponse.mk 500 false
      ("Server error during provider registration: " ++ error.message) none)

/-- The request of `POST /:id/review` after `auth`: `req.params.id`, `req.user` and the
body fields `rating` (as the Number the schema casts it to) and `comment`. -/
structure ReviewRequest where
  id : String
  user : User
  rating : Rat
  comment : JsValue
deriving DecidableEq, Repr

/-- The `try` block of `POST /:id/review`, lines 256-288.  Without `res.status` the
status of a response is 200. -/
def tryAddReview (lib : Lib) (w : World) (req : ReviewRequest) :
    Prod World (Except JsError ProviderResponse) :=
  match Provider.findById lib w req.id with
  | .error e => (w, .error e)
  | .ok none => (w, .ok (ProviderResponse.mk 200 false "Provider not found" none))
  | .ok (some provider) =>
    let alreadyReviewed := provider.reviews.find? fun r => r.userId == req.user._id
    if alreadyReviewed.isSome then
      (w, .ok (ProviderResponse.mk 200 false "You already reviewed this provider" none))
    else
      let review := Review.mk req.user.id req.user.email req.rating req.comment
      let provider := { provider with reviews := provider.reviews ++ [review] }
      let provider := provider.calculateRating lib
      match lib.saveProviderError provider with
      | some e => (w, .error e)
      | none =>
        (w.saveProvider provider,
          .ok (ProviderResponse.mk 200 true "Review added" (some provider)))

/-- The handler of `POST /:id/review`, lines 255-293. -/
def addReview (lib : Lib) (w : World) (req : ReviewRequest) : Prod World ProviderResponse :=
  match tryAddReview lib w req with
  | (w, .ok r) => (w, r)
  | (w, .error _) => (w, ProviderResponse.mk 200 false "Error adding review" none)

/-! ## Vocabulary of the statements about the routes -/

/-- The document that `POST /:id/review` saves for `provider`: the review appended, the
rating recomputed. -/
def reviewedProvider (lib : Lib) (provider : Provider) (req : ReviewRequest) : Provider :=
  Provider.calculateRating lib
    { provider with
      reviews := provider.reviews ++
        [Review.mk req.user.id req.user.email req.rating req.comment] }

/-- The document that `POST /` builds with `new Provider` (lines 60-74) from the request
and the two parsed lists. -/
def registeredProvider (lib : Lib) (req : RegisterRequest) (skills paymentMethods : Parsed) :
    Provider :=
  { _id := lib.newObjectId
    userId := req.user._id
    fullName := req.body.fullName
    category := withDefault req.body.category (.str "")
    location := req.body.location
    rate := .num 0
    contact := req.body.contact
    email := req.body.email
    bio := req.body.bio
    organizationType := withDefault req.body.organizationType (.str "individual")
    skills := skills
    profilePic := firstPathOr (req.files.bind fun f => f.profilePic)
    idCard := firstPathOr (req.files.bind fun f => f.idCard)
    sampleWork := (req.files.bind fun f => f.sampleWork).getD []
    paymentMethods := paymentMethods
    reviews := []
    averageRating := 0 }

/-! ## A concrete world for evaluating the handlers -/

/-- A sample `JSON.parse`, right on the few texts used below; every other text is
rejected. -/
def sampleParse (x : JsValue) : Except JsError Parsed :=
  if x = .str "[]" then .ok (.array [])
  else if x = .str "[\"a.png\"]" then .ok (.array [.str "a.png"])
  else if x = .str "[1]" then .ok (.array [.num 1])
  else if x = .str "\x7b\"min\":\"80\"\x7d" then .ok (.object [("min", .str "80")])
  else if x = .str "\x7b\"min\":0\x7d" then .ok (.object [("min", .num 0)])
  else if x = .str "\x7b\"min\":80,\"max\":0\x7d" then
    .ok (.object [("min", .num 80), ("max", .num 0)])
  else if x = .str "\x7b\"phone\":\"555\"\x7d" then .ok (.object [("phone", .str "555")])
  else .error (JsError.mk "SyntaxError" "Unexpected token")

/-- A sample `trim`: it removes the spaces at both ends, which is what
`String.prototype.trim` does to the texts used below. -/
def sampleTrim (s : String) : String :=
  String.mk ((s.data.dropWhile fun c => c == ' ').reverse.dropWhile fun c => c == ' ').reverse

/-- A sample library: every query, save and delete goes through; the casts are right on
the few values used below (the number 1 on a String path, the text `80` on a Number
path) and fail on every other value that is not of the declared type; sums and quotients
are exact. -/
def sampleLib : Lib :=
  { parse := sampleParse
    toString := fun _ => "[object Object]"
    queryError := fun _ => none
    saveTaskError := fun _ => none
    deleteTaskError := fun _ => none
    saveProviderError := fun _ => none
    typeError := fun what => JsError.mk "TypeError" what
    newObjectId := "p9"
    trim := sampleTrim
    castString := fun v => if v = .num 1 then some (.str "1") else none
    castTitle := fun _ => none
    castNumber := fun v => if v = .str "80" then some (.num 80) else none
    castDate := fun v => some (.ofValue v)
    validationError := fun _ => JsError.mk "ValidationError" "Task validation failed"
    add := fun a b => a + b
    div := fun a b => a / b }

/-- The sample library with a store that rejects the id `abc`, which is not an ObjectId,
as Mongoose does. -/
def strictLib : Lib :=
  { sampleLib with
    queryError := fun id =>
      if id = "abc" then
        some (JsError.mk "CastError"
          "Cast to ObjectId failed for value \"abc\" (type string) at path \"_id\" for model \"Task\"")
      else none }

/-- Three users. -/
def alice : User := User.mk "u1" "alice@example.com"

/-- The second user. -/
def bob : User := User.mk "u2" "bob@example.com"

/-- The third user. -/
def carol : User := User.mk "u3" "carol@example.com"

/-- A task of `alice` with two images and a budget from 50 to 100. -/
def sampleTask : Task :=
  { _id := "t1"
    title := .str "Fix the sink"
    category := .str "Plumbing"
    description := .str "Kitchen sink leaks"
    location := .str "Accra"
    dueDate := .stored "2025-01-01"
    budget := Budget.mk (.num 50) (.num 100)
    contact := Contact.mk (.str "0200") (.str "")
    images := [.str "a.png", .str "b.png"]
    clientId := "u1"
    status := "open" }

/-- The provider profile of `bob`, reviewed once, by `carol`. -/
def sampleProvider : Provider :=
  { _id := "p1"
    userId := "u2"
    fullName := .str "Bob"
    category := .str "Plumbing"
    location := .str "Accra"
    rate := .num 0
    contact := .str "0201"
    email := .str "bob@example.com"
    bio := .str "Plumber"
    organizationType := .str "individual"
    skills := .array [.str "pipes"]
    profilePic := .str ""
    idCard := .str ""
    sampleWork := []
    paymentMethods := .array []
    reviews := [Review.mk "u3" "carol@example.com" 4 (.str "Good")]
    averageRating := 4 }

/-- A world with that one task and that one provider. -/
def sampleWorld : World :=
  World.mk [sampleTask] [sampleProvider] []

/-- A body of `PUT /:id` with every field absent. -/
def emptyBody : UpdateBody :=
  UpdateBody.mk .undefined .undefined .undefined .undefined .undefined .undefined
    .undefined .undefined

/-- A body of `POST /` with the required fields. -/
def sampleRegisterBody : RegisterBody :=
  { fullName := .str "Alice"
    category := .undefined
    location := .str "Accra"
    contact := .str "0200"
    email := .str "alice@example.com"
    bio := .str "Carpenter"
    organizationType := .undefined
    skills := .undefined
    paymentMethods := .undefined }

/-! ## The shape of a run, case by case -/

section Shape

variable {U : Type}

theorem truthy_some (t : String) : truthy (some t) = true <-> Not (t = "") := by
  simp [truthy]

/-- With no header, or an empty extracted token, the run is the single no-token response. -/
theorem auth_run_falsy (env : Env U) (req : Request U)
    (h : truthy (extractToken req) = false) :
    auth env req = Run.mk req [.respond noTokenResponse] := by
  simp [auth, h, Run.respond, Run.emit]

/-- A thrown verification error leads to the catch block after the single verify call. -/
theorem auth_run_verify_error (env : Env U) (req : Request U) (t : String) (e : JsError)
    (ht : extractToken req = some t) (hne : Not (t = ""))
    (hv : env.verify t env.JWT_SECRET = .error e) :
    auth env req = onError e (Run.mk req [.verify t env.JWT_SECRET]) := by
  simp [auth, ht, truthy, hne, hv, Run.emit]

/-- A thrown lookup error leads to the catch block after the verify and lookup calls. -/
theorem auth_run_lookup_error (env : Env U) (req : Request U) (t : String) (d : Decoded)
    (e : JsError) (ht : extractToken req = some t) (hne : Not (t = ""))
    (hv : env.verify t env.JWT_SECRET = .ok d) (hl : env.findById d.id = .error e) :
    auth env req = onError e (Run.mk req [.verify t env.JWT_SECRET, .findById d.id]) := by
  simp [auth, ht, truthy, hne, hv, hl, Run.emit]

/-- A lookup that finds nothing leads to the user-not-found response. -/
theorem auth_run_not_found (env : Env U) (req : Request U) (t : String) (d : Decoded)
    (ht : extractToken req = some t) (hne : Not (t = ""))
    (hv : env.verify t env.JWT_SECRET = .ok d) (hl : env.findById d.id = .ok none) :
    auth env req = Run.mk req
      [.verify t env.JWT_SECRET, .findById d.id, .respond userNotFoundResponse] := by
  simp [auth, ht, truthy, hne, hv, hl, Run.emit, Run.respond]

/-- A lookup that finds a record leads to the write of `req.user` and the call of `next`. -/
theorem auth_run_found (env : Env U) (req : Request U) (t : String) (d : Decoded) (u : U)
    (ht : extractToken req = some t) (hne : Not (t = ""))
    (hv : env.verify t env.JWT_SECRET = .ok d) (hl : env.findById d.id = .ok (some u)) :
    auth env req = Run.mk (Request.mk req.authorization (some u))
      [.verify t env.JWT_SECRET, .findById d.id, .setUser u, .next] := by
  simp [auth, ht, truthy, hne, hv, hl, Run.emit, Run.setUser]

/-- The catch block sends exactly one response and touches nothing else. -/
theorem onError_run (e : JsError) (st : Run U) :
    onError e st = Run.mk st.req (st.events ++ [.respond
      (if e.name = "JsonWebTokenError" then invalidTokenResponse
       else if e.name = "TokenExpiredError" then tokenExpiredResponse
       else serverErrorResponse)]) := by
  unfold onError
  split
  . rfl
  . split <;> rfl

end Shape

/-- Every run has one of five shapes, decided by the extracted token and by what
verification and the lookup return. -/
theorem auth_cases {U : Type} (env : Env U) (req : Request U) :
    (truthy (extractToken req) = false /\
      auth env req = Run.mk req [.respond noTokenResponse]) \/
    (exists t e, extractToken req = some t /\ Not (t = "") /\
      env.verify t env.JWT_SECRET = .error e /\
      auth env req = onError e (Run.mk req [.verify t env.JWT_SECRET])) \/
    (exists t d e, extractToken req = some t /\ Not (t = "") /\
      env.verify t env.JWT_SECRET = .ok d /\ env.findById d.id = .error e /\
      auth env req = onError e (Run.mk req [.verify t env.JWT_SECRET, .findById d.id])) \/
    (exists t d, extractToken req = some t /\ Not (t = "") /\
      env.verify t env.JWT_SECRET = .ok d /\ env.findById d.id = .ok none /\
      auth env req = Run.mk req
        [.verify t env.JWT_SECRET, .findById d.id, .respond userNotFoundResponse]) \/
    (exists t d u, extractToken req = some t /\ Not (t = "") /\
      env.verify t env.JWT_SECRET = .ok d /\ env.findById d.id = .ok (some u) /\
      auth env req = Run.mk (Request.mk req.authorization (some u))
        [.verify t env.JWT_SECRET, .findById d.id, .setUser u, .next]) := by
  cases ht : extractToken req with
  | none =>
    left
    have hf : truthy (extractToken req) = false := by simp [ht, truthy]
    exact And.intro (by simp [truthy]) (auth_run_falsy env req hf)
  | some t =>
    by_cases hne : t = ""
    . left
      have hf : truthy (extractToken req) = false := by simp [ht, hne, truthy]
      exact And.intro (by simp [hne, truthy]) (auth_run_falsy env req hf)
    . right
      cases hv : env.verify t env.JWT_SECRET with
      | error e =>
        left
        exact Exists.intro t (Exists.intro e (And.intro rfl (And.intro hne (And.intro hv
          (auth_run_verify_error env req t e ht hne hv)))))
      | ok d =>
        right
        cases hl : env.findById d.id with
        | error e =>
          left
          exact Exists.intro t (Exists.intro d (Exists.intro e (And.intro rfl (And.intro hne
            (And.intro hv (And.intro hl
              (auth_run_lookup_error env req t d e ht hne hv hl)))))))
        | ok r =>
          right
          cases r with
          | none =>
            left
            exact Exists.intro t (Exists.intro d (And.intro rfl (And.intro hne
              (And.intro hv (And.intro hl (auth_run_not_found env req t d ht hne hv hl))))))
          | some u =>
            right
            exact Exists.intro t (Exists.intro d (Exists.intro u (And.intro rfl
              (And.intro hne (And.intro hv (And.intro hl
                (auth_run_found env req t d u ht hne hv hl)))))))

/-! ## Token extraction -/

theorem replaceChars_nil_of_eq_nil (pat s : List Char)
    (h : replaceChars pat [] s = []) : s = [] \/ pat.isPrefixOf s = true := by
  cases s with
  | nil => exact Or.inl rfl
  | cons c cs =>
    by_cases hp : pat.isPrefixOf (c :: cs) = true
    . exact Or.inr hp
    . simp [replaceChars, hp] at h

theorem replace_eq_empty (hdr : String) (h : replace hdr "Bearer " "" = "") :
    hdr = "" \/ startsWith hdr "Bearer " = true := by
  have h1 : replaceChars "Bearer ".data [] hdr.data = [] := by
    have := congrArg String.data h
    simpa [replace] using this
  rcases replaceChars_nil_of_eq_nil _ _ h1 with h2 | h2
  . left
    exact String.ext h2
  . right
    exact h2

theorem replaceChars_append (pat rep l : List Char) (hp : Not (pat = [])) :
    replaceChars pat rep (pat ++ l) = rep ++ l := by
  cases pat with
  | nil => exact absurd rfl hp
  | cons p ps =>
    have h1 : (p :: ps).isPrefixOf (p :: (ps ++ l)) = true := by
      rw [List.isPrefixOf_iff_prefix]
      exact List.prefix_append (p :: ps) l
    have h2 : List.drop (p :: ps).length (p :: (ps ++ l)) = l := by
      simp
    show replaceChars (p :: ps) rep (p :: (ps ++ l)) = rep ++ l
    simp only [replaceChars, h1, if_true, h2]

/-- The header `Bearer ` followed by `t` yields the token `t`. -/
theorem replace_bearer_append (t : String) : replace ("Bearer " ++ t) "Bearer " "" = t := by
  have h := replaceChars_append "Bearer ".data [] t.data (by decide)
  simp only [replace, String.data_append, h, List.nil_append]

/-! ## The claims about the request authenticator -/

/-- Claim C1. For every request with no Authorization header, and for every request whose
header yields an empty token after removing `Bearer `, the middleware sends exactly the
response 401, success=false, message `No token provided, authorization denied`; neither
`jwt.verify` nor the user lookup is invoked and `next` is not called. -/
theorem auth_no_token {U : Type} (env : Env U) (req : Request U)
    (h : req.authorization = none \/
      exists hdr, req.authorization = some hdr /\ replace hdr "Bearer " "" = "") :
    (auth env req).responses =
        [Response.mk 401 false "No token provided, authorization denied"] /\
      (auth env req).verifyCalls = [] /\
      (auth env req).lookupCalls = [] /\
      (auth env req).nextCalls = 0 := by
  have hf : truthy (extractToken req) = false := by
    rcases h with h | h
    . simp [extractToken, h, truthy]
    . obtain ⟨hdr, h1, h2⟩ := h
      simp [extractToken, h1, h2, truthy]
  rw [auth_run_falsy env req hf]
  simp [Run.responses, Run.verifyCalls, Run.lookupCalls, Run.nextCalls, noTokenResponse]

/-- Claim C1 at the header that is exactly `Bearer `. -/
theorem auth_no_token_witness :
    ((requestWith (some "Bearer ")).authorization = none \/
      exists hdr, (requestWith (some "Bearer ")).authorization = some hdr /\
        replace hdr "Bearer " "" = "") /\
    ((auth sampleEnv (requestWith (some "Bearer "))).responses =
        [Response.mk 401 false "No token provided, authorization denied"] /\
      (auth sampleEnv (requestWith (some "Bearer "))).verifyCalls = [] /\
      (auth sampleEnv (requestWith (some "Bearer "))).lookupCalls = [] /\
      (auth sampleEnv (requestWith (some "Bearer "))).nextCalls = 0) :=
  And.intro (Or.inr (Exists.intro "Bearer " (And.intro rfl (by decide))))
    (auth_no_token sampleEnv (requestWith (some "Bearer "))
      (Or.inr (Exists.intro "Bearer " (And.intro rfl (by decide)))))

/-- The two headers named in claim C1 both yield the empty token, and the empty header
and the absent header are answered with the no-token response. -/
theorem empty_token_examples :
    replace "Bearer " "Bearer " "" = "" /\ replace "" "Bearer " "" = "" /\
    auth sampleEnv (requestWith (some "")) =
      Run.mk (requestWith (some "")) [.respond noTokenResponse] /\
    auth sampleEnv (requestWith none) =
      Run.mk (requestWith none) [.respond noTokenResponse] := by
  decide

/-- Claim C2 fails as stated: the header `good` does not start with `Bearer `, yet it is
handed to verification as the token, the user lookup is invoked, `next` is called and no
response is sent. -/
theorem auth_bare_token_accepted :
    startsWith "good" "Bearer " = false /\
    (auth sampleEnv (requestWith (some "good"))).responses = [] /\
    (auth sampleEnv (requestWith (some "good"))).verifyCalls = ["good"] /\
    (auth sampleEnv (requestWith (some "good"))).lookupCalls = [some "u1"] /\
    (auth sampleEnv (requestWith (some "good"))).nextCalls = 1 := by
  decide

/-- Claim C2, amended. For a request whose Authorization header does not start with
`Bearer `: if the header is empty the middleware sends the 401 no-token response and
invokes neither verification nor the lookup; if the header is not empty, the header with
the first occurrence of `Bearer ` removed is a non-empty token, it is the one token handed
to `jwt.verify`, the no-token response is not sent, and the lookup is invoked exactly when
that verification succeeds. -/
theorem auth_header_without_bearer {U : Type} (env : Env U) (req : Request U) (hdr : String)
    (hh : req.authorization = some hdr) (hp : startsWith hdr "Bearer " = false) :
    (hdr = "" ->
      (auth env req).responses =
          [Response.mk 401 false "No token provided, authorization denied"] /\
        (auth env req).verifyCalls = [] /\
        (auth env req).lookupCalls = []) /\
    (Not (hdr = "") ->
      Not (replace hdr "Bearer " "" = "") /\
        (auth env req).verifyCalls = [replace hdr "Bearer " ""] /\
        Not (Response.mk 401 false "No token provided, authorization denied"
              ∈ (auth env req).responses) /\
        (Not ((auth env req).lookupCalls = []) <->
          exists d, env.verify (replace hdr "Bearer " "") env.JWT_SECRET = .ok d)) := by
  constructor
  . intro h0
    have hf : truthy (extractToken req) = false := by
      subst h0
      simp only [extractToken, hh, Option.map_some']
      decide
    rw [auth_run_falsy env req hf]
    simp [Run.responses, Run.verifyCalls, Run.lookupCalls, noTokenResponse]
  . intro h0
    have hne : Not (replace hdr "Bearer " "" = "") := by
      intro h1
      rcases replace_eq_empty hdr h1 with h2 | h2
      . exact h0 h2
      . rw [hp] at h2
        exact Bool.false_ne_true h2
    have ht : extractToken req = some (replace hdr "Bearer " "") := by
      simp [extractToken, hh]
    refine And.intro hne ?_
    cases hv : env.verify (replace hdr "Bearer " "") env.JWT_SECRET with
    | error e =>
      rw [auth_run_verify_error env req _ e ht hne hv, onError_run]
      simp only [Run.responses, Run.verifyCalls, Run.lookupCalls]
      split_ifs <;>
        simp [invalidTokenResponse, tokenExpiredResponse, serverErrorResponse]
    | ok d =>
      cases hl : env.findById d.id with
      | error e =>
        rw [auth_run_lookup_error env req _ d e ht hne hv hl, onError_run]
        simp only [Run.responses, Run.verifyCalls, Run.lookupCalls]
        split_ifs <;>
          simp [invalidTokenResponse, tokenExpiredResponse, serverErrorResponse]
      | ok r =>
        cases r with
        | none =>
          rw [auth_run_not_found env req _ d ht hne hv hl]
          simp [Run.responses, Run.verifyCalls, Run.lookupCalls, userNotFoundResponse]
        | some u =>
          rw [auth_run_found env req _ d u ht hne hv hl]
          simp [Run.responses, Run.verifyCalls, Run.lookupCalls]

/-- Claim C2, amended, at the bare header `ghost`. -/
theorem auth_header_without_bearer_witness :
    (requestWith (some "ghost")).authorization = some "ghost" /\
    startsWith "ghost" "Bearer " = false /\
    (("ghost" = "" ->
      (auth sampleEnv (requestWith (some "ghost"))).responses =
          [Response.mk 401 false "No token provided, authorization denied"] /\
        (auth sampleEnv (requestWith (some "ghost"))).verifyCalls = [] /\
        (auth sampleEnv (requestWith (some "ghost"))).lookupCalls = []) /\
    (Not ("ghost" = "") ->
      Not (replace "ghost" "Bearer " "" = "") /\
        (auth sampleEnv (requestWith (some "ghost"))).verifyCalls =
          [replace "ghost" "Bearer " ""] /\
        Not (Response.mk 401 false "No token provided, authorization denied"
              ∈ (auth sampleEnv (requestWith (some "ghost"))).responses) /\
        (Not ((auth sampleEnv (requestWith (some "ghost"))).lookupCalls = []) <->
          exists d, sampleEnv.verify (replace "ghost" "Bearer " "") sampleEnv.JWT_SECRET
            = .ok d))) :=
  And.intro rfl (And.intro (by decide)
    (auth_header_without_bearer sampleEnv (requestWith (some "ghost")) "ghost" rfl
      (by decide)))

/-- Claim C3. For every non-empty extracted token on which `jwt.verify` throws an error
named `JsonWebTokenError`, the middleware sends exactly the response 401, success=false,
message `Invalid token`; the lookup is never invoked, `next` is not called and `req.user`
is neither written nor changed. -/
theorem auth_invalid_signature {U : Type} (env : Env U) (req : Request U) (t : String)
    (e : JsError) (ht : extractToken req = some t) (hne : Not (t = ""))
    (hv : env.verify t env.JWT_SECRET = .error e) (hn : e.name = "JsonWebTokenError") :
    (auth env req).responses = [Response.mk 401 false "Invalid token"] /\
      (auth env req).lookupCalls = [] /\
      (auth env req).nextCalls = 0 /\
      (auth env req).userWrites = [] /\
      (auth env req).req = req := by
  rw [auth_run_verify_error env req t e ht hne hv, onError_run]
  simp [hn, Run.responses, Run.lookupCalls, Run.nextCalls, Run.userWrites,
    invalidTokenResponse]

/-- Claim C3 at the header `Bearer forged`. -/
theorem auth_invalid_signature_witness :
    extractToken (requestWith (some "Bearer forged")) = some "forged" /\
    Not ("forged" = "") /\
    sampleEnv.verify "forged" sampleEnv.JWT_SECRET =
      .error (JsError.mk "JsonWebTokenError" "invalid signature") /\
    (JsError.mk "JsonWebTokenError" "invalid signature").name = "JsonWebTokenError" /\
    ((auth sampleEnv (requestWith (some "Bearer forged"))).responses =
        [Response.mk 401 false "Invalid token"] /\
      (auth sampleEnv (requestWith (some "Bearer forged"))).lookupCalls = [] /\
      (auth sampleEnv (requestWith (some "Bearer forged"))).nextCalls = 0 /\
      (auth sampleEnv (requestWith (some "Bearer forged"))).userWrites = [] /\
      (auth sampleEnv (requestWith (some "Bearer forged"))).req =
        requestWith (some "Bearer forged")) :=
  And.intro (by decide) (And.intro (by decide) (And.intro (by decide) (And.intro rfl
    (auth_invalid_signature sampleEnv (requestWith (some "Bearer forged")) "forged"
      (JsError.mk "JsonWebTokenError" "invalid signature")
      (by decide) (by decide) (by decide) rfl))))

/-- Claim C4. For every non-empty extracted token on which `jwt.verify` throws an error
named `TokenExpiredError`, the middleware sends exactly the response 401, success=false,
message `Token expired`, a message different from the one for an invalid signature; the
lookup is not invoked and `next` is not called. -/
theorem auth_token_expired {U : Type} (env : Env U) (req : Request U) (t : String)
    (e : JsError) (ht : extractToken req = some t) (hne : Not (t = ""))
    (hv : env.verify t env.JWT_SECRET = .error e) (hn : e.name = "TokenExpiredError") :
    (auth env req).responses = [Response.mk 401 false "Token expired"] /\
      Not ("Token expired" = invalidTokenResponse.message) /\
      (auth env req).lookupCalls = [] /\
      (auth env req).nextCalls = 0 := by
  have hn2 : Not (e.name = "JsonWebTokenError") := by
    rw [hn]
    decide
  rw [auth_run_verify_error env req t e ht hne hv, onError_run]
  simp [hn, Run.responses, Run.lookupCalls, Run.nextCalls, tokenExpiredResponse,
    invalidTokenResponse]

/-- Claim C4 at the header `Bearer expired`. -/
theorem auth_token_expired_witness :
    extractToken (requestWith (some "Bearer expired")) = some "expired" /\
    Not ("expired" = "") /\
    sampleEnv.verify "expired" sampleEnv.JWT_SECRET =
      .error (JsError.mk "TokenExpiredError" "jwt expired") /\
    (JsError.mk "TokenExpiredError" "jwt expired").name = "TokenExpiredError" /\
    ((auth sampleEnv (requestWith (some "Bearer expired"))).responses =
        [Response.mk 401 false "Token expired"] /\
      Not ("Token expired" = invalidTokenResponse.message) /\
      (auth sampleEnv (requestWith (some "Bearer expired"))).lookupCalls = [] /\
      (auth sampleEnv (requestWith (some "Bearer expired"))).nextCalls = 0) :=
  And.intro (by decide) (And.intro (by decide) (And.intro (by decide) (And.intro rfl
    (auth_token_expired sampleEnv (requestWith (some "Bearer expired")) "expired"
      (JsError.mk "TokenExpiredError" "jwt expired")
      (by decide) (by decide) (by decide) rfl))))

/-- Claim C5. For every extracted token that verifies successfully and whose embedded id
has no matching user record (the lookup returns null), the middleware sends exactly one
response, with status 401 (not 500) and success=false, does not call `next` and neither
writes nor changes `req.user`; for a non-empty token that response is the one of lines
26-29. -/
theorem auth_user_not_found {U : Type} (env : Env U) (req : Request U) (t : String)
    (d : Decoded) (ht : extractToken req = some t)
    (hv : env.verify t env.JWT_SECRET = .ok d) (hl : env.findById d.id = .ok none) :
    (exists r, (auth env req).responses = [r] /\ r.status = 401 /\
        Not (r.status = 500) /\ r.success = false /\
        (Not (t = "") -> r.message = "Token is not valid - user not found")) /\
      (auth env req).nextCalls = 0 /\
      (auth env req).userWrites = [] /\
      (auth env req).req = req := by
  by_cases hne : t = ""
  . have hf : truthy (extractToken req) = false := by
      simp [ht, hne, truthy]
    rw [auth_run_falsy env req hf]
    refine And.intro (Exists.intro noTokenResponse ?_) ?_
    . simp [Run.responses, noTokenResponse, hne]
    . simp [Run.nextCalls, Run.userWrites]
  . rw [auth_run_not_found env req t d ht hne hv hl]
    refine And.intro (Exists.intro userNotFoundResponse ?_) ?_
    . simp [Run.responses, userNotFoundResponse]
    . simp [Run.nextCalls, Run.userWrites]

/-- Claim C5 at the header `Bearer ghost`, whose id `u404` is not in the store. -/
theorem auth_user_not_found_witness :
    extractToken (requestWith (some "Bearer ghost")) = some "ghost" /\
    sampleEnv.verify "ghost" sampleEnv.JWT_SECRET = .ok (Decoded.mk (some "u404")) /\
    sampleEnv.findById (Decoded.mk (some "u404")).id = .ok none /\
    ((exists r, (auth sampleEnv (requestWith (some "Bearer ghost"))).responses = [r] /\
        r.status = 401 /\ Not (r.status = 500) /\ r.success = false /\
        (Not ("ghost" = "") -> r.message = "Token is not valid - user not found")) /\
      (auth sampleEnv (requestWith (some "Bearer ghost"))).nextCalls = 0 /\
      (auth sampleEnv (requestWith (some "Bearer ghost"))).userWrites = [] /\
      (auth sampleEnv (requestWith (some "Bearer ghost"))).req =
        requestWith (some "Bearer ghost")) :=
  And.intro (by decide) (And.intro (by decide) (And.intro (by decide)
    (auth_user_not_found sampleEnv (requestWith (some "Bearer ghost")) "ghost"
      (Decoded.mk (some "u404")) (by decide) (by decide) (by decide))))

/-- Claim C6. For every header `Bearer ` followed by a token `t` (non-empty, as every
token that reaches verification is) that verifies to a payload with id `i`, where the
lookup for `i` returns the record `u`: the middleware looks up exactly `i`, writes exactly
`u` to `req.user`, calls `next` exactly once and sends no response. -/
theorem auth_success {U : Type} (env : Env U) (req : Request U) (t : String) (d : Decoded)
    (i : Option String) (u : U)
    (hh : req.authorization = some ("Bearer " ++ t)) (hne : Not (t = ""))
    (hv : env.verify t env.JWT_SECRET = .ok d) (hi : d.id = i)
    (hl : env.findById i = .ok (some u)) :
    (auth env req).req.user = some u /\
      (auth env req).userWrites = [u] /\
      (auth env req).lookupCalls = [i] /\
      (auth env req).nextCalls = 1 /\
      (auth env req).responses = [] := by
  have ht : extractToken req = some t := by
    simp [extractToken, hh, replace_bearer_append]
  subst hi
  rw [auth_run_found env req t d u ht hne hv hl]
  simp [Run.responses, Run.lookupCalls, Run.nextCalls, Run.userWrites]

/-- Claim C6 at the scenario of the specification: token for `u1`, store holding `u1`. -/
theorem auth_success_witness :
    (requestWith (some "Bearer good")).authorization = some ("Bearer " ++ "good") /\
    Not ("good" = "") /\
    sampleEnv.verify "good" sampleEnv.JWT_SECRET = .ok (Decoded.mk (some "u1")) /\
    (Decoded.mk (some "u1")).id = some "u1" /\
    sampleEnv.findById (some "u1") = .ok (some (UserRecord.mk "u1" "a@b.com")) /\
    ((auth sampleEnv (requestWith (some "Bearer good"))).req.user =
        some (UserRecord.mk "u1" "a@b.com") /\
      (auth sampleEnv (requestWith (some "Bearer good"))).userWrites =
        [UserRecord.mk "u1" "a@b.com"] /\
      (auth sampleEnv (requestWith (some "Bearer good"))).lookupCalls = [some "u1"] /\
      (auth sampleEnv (requestWith (some "Bearer good"))).nextCalls = 1 /\
      (auth sampleEnv (requestWith (some "Bearer good"))).responses = []) :=
  And.intro (by decide) (And.intro (by decide) (And.intro (by decide) (And.intro rfl
    (And.intro (by decide)
      (auth_success sampleEnv (requestWith (some "Bearer good")) "good"
        (Decoded.mk (some "u1")) (some "u1") (UserRecord.mk "u1" "a@b.com")
        (by decide) (by decide) (by decide) rfl (by decide))))))

/-- Claim C7. For every error thrown by verification or by the lookup whose name is
neither `JsonWebTokenError` nor `TokenExpiredError`, the middleware sends exactly the
response 500, success=false, message `Server error in authentication`, and any other run
in which such an error is thrown sends the same response: it depends on no detail of the
error. -/
theorem auth_server_error {U : Type} (env : Env U) (req : Request U) (e : JsError)
    (hthrow : Throws env req e)
    (h1 : Not (e.name = "JsonWebTokenError")) (h2 : Not (e.name = "TokenExpiredError")) :
    (auth env req).responses =
        [Response.mk 500 false "Server error in authentication"] /\
      (auth env req).nextCalls = 0 /\
      (forall (env2 : Env U) (req2 : Request U) (e2 : JsError), Throws env2 req2 e2 ->
        Not (e2.name = "JsonWebTokenError") -> Not (e2.name = "TokenExpiredError") ->
        (auth env2 req2).responses = (auth env req).responses) := by
  have key : forall (env3 : Env U) (req3 : Request U) (e3 : JsError), Throws env3 req3 e3 ->
      Not (e3.name = "JsonWebTokenError") -> Not (e3.name = "TokenExpiredError") ->
      (auth env3 req3).responses =
          [Response.mk 500 false "Server error in authentication"] /\
        (auth env3 req3).nextCalls = 0 := by
    intro env3 req3 e3 h3 n1 n2
    obtain ⟨t, ht, hne, hcase⟩ := h3
    rcases hcase with hv | ⟨d, hv, hl⟩
    . rw [auth_run_verify_error env3 req3 t e3 ht hne hv, onError_run]
      simp [n1, n2, Run.responses, Run.nextCalls, serverErrorResponse]
    . rw [auth_run_lookup_error env3 req3 t d e3 ht hne hv hl, onError_run]
      simp [n1, n2, Run.responses, Run.nextCalls, serverErrorResponse]
  refine And.intro (key env req e hthrow h1 h2).1 (And.intro (key env req e hthrow h1 h2).2 ?_)
  intro env2 req2 e2 h3 n1 n2
  rw [(key env2 req2 e2 h3 n1 n2).1, (key env req e hthrow h1 h2).1]

/-- Claim C7 at a token whose identifier makes the lookup throw a `CastError`. -/
theorem auth_server_error_witness :
    Throws sampleEnv (requestWith (some "Bearer odd"))
      (JsError.mk "CastError" "Cast to ObjectId failed") /\
    Not ((JsError.mk "CastError" "Cast to ObjectId failed").name = "JsonWebTokenError") /\
    Not ((JsError.mk "CastError" "Cast to ObjectId failed").name = "TokenExpiredError") /\
    ((auth sampleEnv (requestWith (some "Bearer odd"))).responses =
        [Response.mk 500 false "Server error in authentication"] /\
      (auth sampleEnv (requestWith (some "Bearer odd"))).nextCalls = 0 /\
      (forall (env2 : Env UserRecord) (req2 : Request UserRecord) (e2 : JsError),
        Throws env2 req2 e2 ->
        Not (e2.name = "JsonWebTokenError") -> Not (e2.name = "TokenExpiredError") ->
        (auth env2 req2).responses =
          (auth sampleEnv (requestWith (some "Bearer odd"))).responses)) :=
  have hthrow : Throws sampleEnv (requestWith (some "Bearer odd"))
      (JsError.mk "CastError" "Cast to ObjectId failed") :=
    Exists.intro "odd" (And.intro (by decide) (And.intro (by decide)
      (Or.inr (Exists.intro (Decoded.mk (some "not-an-object-id"))
        (And.intro (by decide) (by decide))))))
  And.intro hthrow (And.intro (by decide) (And.intro (by decide)
    (auth_server_error sampleEnv (requestWith (some "Bearer odd"))
      (JsError.mk "CastError" "Cast to ObjectId failed") hthrow (by decide) (by decide))))

/-- Claim C8 fails as stated: a token that verifies but has no matching record and a
token with a bad signature are answered with different responses (the messages differ). -/
theorem auth_not_found_unlike_invalid :
    sampleEnv.verify "ghost" sampleEnv.JWT_SECRET = .ok (Decoded.mk (some "u404")) /\
    sampleEnv.findById (some "u404") = .ok none /\
    sampleEnv.verify "forged" sampleEnv.JWT_SECRET =
      .error (JsError.mk "JsonWebTokenError" "invalid signature") /\
    (auth sampleEnv (requestWith (some "Bearer ghost"))).responses =
      [Response.mk 401 false "Token is not valid - user not found"] /\
    (auth sampleEnv (requestWith (some "Bearer forged"))).responses =
      [Response.mk 401 false "Invalid token"] /\
    Not ((auth sampleEnv (requestWith (some "Bearer ghost"))).responses =
      (auth sampleEnv (requestWith (some "Bearer forged"))).responses) := by
  decide

/-- Claim C8, amended. For every non-empty token that verifies but has no matching record
and every non-empty token on which verification throws a `JsonWebTokenError`, both
responses have status 401 and success=false; the message of the first is
`Token is not valid - user not found`, the message of the second is `Invalid token`. -/
theorem auth_not_found_and_invalid {U : Type} (env1 env2 : Env U) (req1 req2 : Request U)
    (t1 t2 : String) (d : Decoded) (e : JsError)
    (ht1 : extractToken req1 = some t1) (hne1 : Not (t1 = ""))
    (hv1 : env1.verify t1 env1.JWT_SECRET = .ok d) (hl1 : env1.findById d.id = .ok none)
    (ht2 : extractToken req2 = some t2) (hne2 : Not (t2 = ""))
    (hv2 : env2.verify t2 env2.JWT_SECRET = .error e) (hn : e.name = "JsonWebTokenError") :
    (auth env1 req1).responses =
        [Response.mk 401 false "Token is not valid - user not found"] /\
      (auth env2 req2).responses = [Response.mk 401 false "Invalid token"] /\
      (forall r1, r1 ∈ (auth env1 req1).responses ->
        forall r2, r2 ∈ (auth env2 req2).responses ->
          r1.status = 401 /\ r2.status = 401 /\ r1.success = false /\ r2.success = false) := by
  have e1 : (auth env1 req1).responses =
      [Response.mk 401 false "Token is not valid - user not found"] := by
    rw [auth_run_not_found env1 req1 t1 d ht1 hne1 hv1 hl1]
    simp [Run.responses, userNotFoundResponse]
  have e2 : (auth env2 req2).responses = [Response.mk 401 false "Invalid token"] := by
    rw [auth_run_verify_error env2 req2 t2 e ht2 hne2 hv2, onError_run]
    simp [hn, Run.responses, invalidTokenResponse]
  refine And.intro e1 (And.intro e2 ?_)
  intro r1 m1 r2 m2
  rw [e1] at m1
  rw [e2] at m2
  simp only [List.mem_singleton] at m1 m2
  subst m1
  subst m2
  exact And.intro rfl (And.intro rfl (And.intro rfl rfl))

/-- Claim C8, amended, at the headers `Bearer ghost` and `Bearer forged`. -/
theorem auth_not_found_and_invalid_witness :
    extractToken (requestWith (some "Bearer ghost")) = some "ghost" /\
    Not ("ghost" = "") /\
    sampleEnv.verify "ghost" sampleEnv.JWT_SECRET = .ok (Decoded.mk (some "u404")) /\
    sampleEnv.findById (Decoded.mk (some "u404")).id = .ok none /\
    extractToken (requestWith (some "Bearer forged")) = some "forged" /\
    Not ("forged" = "") /\
    sampleEnv.verify "forged" sampleEnv.JWT_SECRET =
      .error (JsError.mk "JsonWebTokenError" "invalid signature") /\
    (JsError.mk "JsonWebTokenError" "invalid signature").name = "JsonWebTokenError" /\
    ((auth sampleEnv (requestWith (some "Bearer ghost"))).responses =
        [Response.mk 401 false "Token is not valid - user not found"] /\
      (auth sampleEnv (requestWith (some "Bearer forged"))).responses =
        [Response.mk 401 false "Invalid token"] /\
      (forall r1, r1 ∈ (auth sampleEnv (requestWith (some "Bearer ghost"))).responses ->
        forall r2, r2 ∈ (auth sampleEnv (requestWith (some "Bearer forged"))).responses ->
          r1.status = 401 /\ r2.status = 401 /\ r1.success = false /\
            r2.success = false)) :=
  And.intro (by decide) (And.intro (by decide) (And.intro (by decide) (And.intro (by decide)
    (And.intro (by decide) (And.intro (by decide) (And.intro (by decide) (And.intro rfl
      (auth_not_found_and_invalid sampleEnv sampleEnv (requestWith (some "Bearer ghost"))
        (requestWith (some "Bearer forged")) "ghost" "forged" (Decoded.mk (some "u404"))
        (JsError.mk "JsonWebTokenError" "invalid signature")
        (by decide) (by decide) (by decide) (by decide)
        (by decide) (by decide) (by decide) rfl))))))))

/-- Claim C9. For every input, `req.user` is written if and only if `next` is called;
in every run that sends a 401 or 500 response the request object is left exactly as it was
on entry and `req.user` is never written; and whenever `req.user` is written, it is written
once, with the whole record returned by the lookup of the verified token's identifier,
and that record is what `req.user` holds at the end. -/
theorem auth_principal_invariant {U : Type} (env : Env U) (req : Request U) :
    (Not ((auth env req).userWrites = []) <-> Not ((auth env req).nextCalls = 0)) /\
    (forall r, r ∈ (auth env req).responses -> r.status = 401 \/ r.status = 500 ->
      (auth env req).req = req /\ (auth env req).userWrites = []) /\
    (forall u, u ∈ (auth env req).userWrites ->
      (auth env req).userWrites = [u] /\
      (auth env req).req.user = some u /\
      (auth env req).req.authorization = req.authorization /\
      exists t d, extractToken req = some t /\
        env.verify t env.JWT_SECRET = .ok d /\ env.findById d.id = .ok (some u)) := by
  rcases auth_cases env req with
    ⟨_, hrun⟩ | ⟨t, e, _, _, _, hrun⟩ | ⟨t, d, e, _, _, _, _, hrun⟩ |
    ⟨t, d, _, _, _, _, hrun⟩ | ⟨t, d, u, ht, _, hv, hl, hrun⟩
  . rw [hrun]
    simp [Run.userWrites, Run.nextCalls, Run.responses]
  . rw [hrun, onError_run]
    simp [Run.userWrites, Run.nextCalls, Run.responses]
  . rw [hrun, onError_run]
    simp [Run.userWrites, Run.nextCalls, Run.responses]
  . rw [hrun]
    simp [Run.userWrites, Run.nextCalls, Run.responses]
  . rw [hrun]
    simp only [Run.userWrites, Run.nextCalls, Run.responses]
    simp
    exact Exists.intro t (And.intro ht (Exists.intro d (And.intro hv hl)))

/-- Claim C10. For every input the run has exactly one of two outcomes: `next` is called
once and no response is sent, or `next` is not called and exactly one response is sent,
with status 401 or 500 and success=false (and a message string).  A response with status
401 is sent exactly when there is no token, or an error named `JsonWebTokenError` or
`TokenExpiredError` is thrown, or the principal is not found; a response with status 500
is sent exactly when an error with any other name is thrown. -/
theorem auth_outcome {U : Type} (env : Env U) (req : Request U) :
    (((auth env req).nextCalls = 1 /\ (auth env req).responses = []) \/
      ((auth env req).nextCalls = 0 /\
        exists r, (auth env req).responses = [r] /\
          (r.status = 401 \/ r.status = 500) /\ r.success = false)) /\
    ((exists r, r ∈ (auth env req).responses /\ r.status = 401) <->
      (NoToken req \/
        (exists e, Throws env req e /\ e.name = "JsonWebTokenError") \/
        (exists e, Throws env req e /\ e.name = "TokenExpiredError") \/
        PrincipalNotFound env req)) /\
    ((exists r, r ∈ (auth env req).responses /\ r.status = 500) <->
      exists e, Throws env req e /\
        Not (e.name = "JsonWebTokenError") /\ Not (e.name = "TokenExpiredError")) := by
  rcases auth_cases env req with
    ⟨hf, hrun⟩ | ⟨t, e, ht, hne, hv, hrun⟩ | ⟨t, d, e, ht, hne, hv, hl, hrun⟩ |
    ⟨t, d, ht, hne, hv, hl, hrun⟩ | ⟨t, d, u, ht, hne, hv, hl, hrun⟩
  . rw [hrun]
    have hno : NoToken req := by
      cases ht : extractToken req with
      | none => exact Or.inl ht
      | some t =>
        rw [ht] at hf
        have : t = "" := by simpa [truthy] using hf
        subst this
        exact Or.inr ht
    have hnt : forall e, Not (Throws env req e) := by
      intro e h
      obtain ⟨t, ht, hne, _⟩ := h
      rw [ht] at hf
      simp [truthy, hne] at hf
    simp [Run.nextCalls, Run.responses, noTokenResponse, hno, hnt]
  . rw [hrun, onError_run]
    have hth : forall e2, Throws env req e2 <-> e2 = e := by
      intro e2
      simp [Throws, ht, hne, hv, eq_comm]
    have hno : Not (NoToken req) := by simp [NoToken, ht, hne]
    have hnf : Not (PrincipalNotFound env req) := by simp [PrincipalNotFound, ht, hv]
    by_cases n1 : e.name = "JsonWebTokenError"
    . simp [Run.nextCalls, Run.responses, invalidTokenResponse, hth, hno, hnf, n1]
    . by_cases n2 : e.name = "TokenExpiredError"
      . simp [Run.nextCalls, Run.responses, tokenExpiredResponse, hth, hno, hnf, n1, n2]
      . simp [Run.nextCalls, Run.responses, serverErrorResponse, hth, hno, hnf, n1, n2]
  . rw [hrun, onError_run]
    have hth : forall e2, Throws env req e2 <-> e2 = e := by
      intro e2
      simp [Throws, ht, hne, hv, hl, eq_comm]
    have hno : Not (NoToken req) := by simp [NoToken, ht, hne]
    have hnf : Not (PrincipalNotFound env req) := by simp [PrincipalNotFound, ht, hv, hl]
    by_cases n1 : e.name = "JsonWebTokenError"
    . simp [Run.nextCalls, Run.responses, invalidTokenResponse, hth, hno, hnf, n1]
    . by_cases n2 : e.name = "TokenExpiredError"
      . simp [Run.nextCalls, Run.responses, tokenExpiredResponse, hth, hno, hnf, n1, n2]
      . simp [Run.nextCalls, Run.responses, serverErrorResponse, hth, hno, hnf, n1, n2]
  . rw [hrun]
    have hth : forall e2, Not (Throws env req e2) := by
      intro e2
      simp [Throws, ht, hne, hv, hl]
    have hnf : PrincipalNotFound env req :=
      Exists.intro t (Exists.intro d (And.intro ht (And.intro hne (And.intro hv hl))))
    simp [Run.nextCalls, Run.responses, userNotFoundResponse, hth, hnf]
  . rw [hrun]
    have hth : forall e2, Not (Throws env req e2) := by
      intro e2
      simp [Throws, ht, hne, hv, hl]
    have hno : Not (NoToken req) := by simp [NoToken, ht, hne]
    have hnf : Not (PrincipalNotFound env req) := by simp [PrincipalNotFound, ht, hv, hl]
    simp [Run.nextCalls, Run.responses, hth, hno, hnf]

/-- Claim C11 fails as stated in one part: a run does not always perform one verification.
With the header absent (or the extracted token empty) `jwt.verify` is not called at all. -/
theorem auth_no_token_no_verification :
    (auth sampleEnv (requestWith none)).verifyCalls = [] /\
    (auth sampleEnv (requestWith (some "Bearer "))).verifyCalls = [] /\
    Not ((auth sampleEnv (requestWith none)).verifyCalls.length = 1) := by
  decide

/-- Claim C11, amended. Two runs of the middleware on requests with the same header, with
the same secret, verifier and user store, record the same events (so the same responses
and the same calls of `next`) and, on success, leave the same principal in `req.user`;
running the middleware again on the request object left by a first run yields the very
same run, so nothing is carried from one run to the next.  A run performs exactly one
verification when the extracted token is non-empty and none otherwise, and at most one
lookup. -/
theorem auth_idempotent {U : Type} (env : Env U) (req1 req2 : Request U)
    (hh : req1.authorization = req2.authorization) :
    (auth env req1).events = (auth env req2).events /\
    (auth env req1).responses = (auth env req2).responses /\
    (auth env req1).nextCalls = (auth env req2).nextCalls /\
    (Not ((auth env req1).nextCalls = 0) ->
      (auth env req1).req.user = (auth env req2).req.user) /\
    auth env (auth env req1).req = auth env req1 /\
    (auth env req1).verifyCalls =
      (if truthy (extractToken req1) = true then [(extractToken req1).getD ""] else []) /\
    (auth env req1).lookupCalls.length <= 1 := by
  have hx : extractToken req2 = extractToken req1 := by
    simp [extractToken, hh]
  rcases auth_cases env req1 with
    ⟨hf, hrun⟩ | ⟨t, e, ht, hne, hv, hrun⟩ | ⟨t, d, e, ht, hne, hv, hl, hrun⟩ |
    ⟨t, d, ht, hne, hv, hl, hrun⟩ | ⟨t, d, u, ht, hne, hv, hl, hrun⟩
  . have hrun2 := auth_run_falsy env req2 (by rw [hx]; exact hf)
    have hrun3 := auth_run_falsy env req1 hf
    rw [hrun, hrun2]
    simp [Run.responses, Run.nextCalls, Run.verifyCalls, Run.lookupCalls, hf, hrun3]
  . have hrun2 := auth_run_verify_error env req2 t e (by rw [hx]; exact ht) hne hv
    have hrun3 := auth_run_verify_error env req1 t e ht hne hv
    have htr : truthy (some t) = true := by simp [truthy, hne]
    rw [hrun, hrun2, onError_run, onError_run]
    simp only [hrun3, onError_run]
    simp [Run.responses, Run.nextCalls, Run.verifyCalls, Run.lookupCalls, htr, ht]
  . have hrun2 := auth_run_lookup_error env req2 t d e (by rw [hx]; exact ht) hne hv hl
    have hrun3 := auth_run_lookup_error env req1 t d e ht hne hv hl
    have htr : truthy (some t) = true := by simp [truthy, hne]
    rw [hrun, hrun2, onError_run, onError_run]
    simp only [hrun3, onError_run]
    simp [Run.responses, Run.nextCalls, Run.verifyCalls, Run.lookupCalls, htr, ht]
  . have hrun2 := auth_run_not_found env req2 t d (by rw [hx]; exact ht) hne hv hl
    have hrun3 := auth_run_not_found env req1 t d ht hne hv hl
    have htr : truthy (some t) = true := by simp [truthy, hne]
    rw [hrun, hrun2]
    simp [Run.responses, Run.nextCalls, Run.verifyCalls, Run.lookupCalls, htr, ht, hrun3]
  . have hrun2 := auth_run_found env req2 t d u (by rw [hx]; exact ht) hne hv hl
    have ht3 : extractToken (Request.mk req1.authorization (some u)) = some t := by
      simpa [extractToken] using ht
    have hrun3 := auth_run_found env (Request.mk req1.authorization (some u)) t d u
      ht3 hne hv hl
    have htr : truthy (some t) = true := by simp [truthy, hne]
    rw [hrun, hrun2]
    simp [Run.responses, Run.nextCalls, Run.verifyCalls, Run.lookupCalls, htr, ht, hrun3]

/-- Claim C11, amended, at two requests carrying the header `Bearer good`, one of them
already holding a principal from an earlier run. -/
theorem auth_idempotent_witness :
    (requestWith (some "Bearer good")).authorization =
      (Request.mk (some "Bearer good") (some (UserRecord.mk "u1" "a@b.com"))).authorization /\
    ((auth sampleEnv (requestWith (some "Bearer good"))).events =
      (auth sampleEnv
        (Request.mk (some "Bearer good") (some (UserRecord.mk "u1" "a@b.com")))).events /\
    (auth sampleEnv (requestWith (some "Bearer good"))).responses =
      (auth sampleEnv
        (Request.mk (some "Bearer good") (some (UserRecord.mk "u1" "a@b.com")))).responses /\
    (auth sampleEnv (requestWith (some "Bearer good"))).nextCalls =
      (auth sampleEnv
        (Request.mk (some "Bearer good") (some (UserRecord.mk "u1" "a@b.com")))).nextCalls /\
    (Not ((auth sampleEnv (requestWith (some "Bearer good"))).nextCalls = 0) ->
      (auth sampleEnv (requestWith (some "Bearer good"))).req.user =
        (auth sampleEnv
          (Request.mk (some "Bearer good") (some (UserRecord.mk "u1" "a@b.com")))).req.user) /\
    auth sampleEnv (auth sampleEnv (requestWith (some "Bearer good"))).req =
      auth sampleEnv (requestWith (some "Bearer good")) /\
    (auth sampleEnv (requestWith (some "Bearer good"))).verifyCalls =
      (if truthy (extractToken (requestWith (some "Bearer good"))) = true
        then [(extractToken (requestWith (some "Bearer good"))).getD ""] else []) /\
    (auth sampleEnv (requestWith (some "Bearer good"))).lookupCalls.length <= 1) :=
  And.intro rfl
    (auth_idempotent sampleEnv (requestWith (some "Bearer good"))
      (Request.mk (some "Bearer good") (some (UserRecord.mk "u1" "a@b.com"))) rfl)

/-- A header in which the pattern does not occur is left as it is. -/
theorem replaceChars_of_not_infix (pat rep : List Char) :
    forall s : List Char, Not (List.IsInfix pat s) -> replaceChars pat rep s = s := by
  intro s
  induction s with
  | nil =>
    intro h
    have hp : Not (pat = []) := by
      intro h0
      apply h
      rw [h0]
    simp [replaceChars, hp]
  | cons c cs ih =>
    intro h
    have h1 : Not (pat.isPrefixOf (c :: cs) = true) := by
      intro hp
      rw [List.isPrefixOf_iff_prefix] at hp
      exact h hp.isInfix
    have h2 : Not (List.IsInfix pat cs) := by
      intro hi
      exact h (hi.trans (List.suffix_cons c cs).isInfix)
    simp [replaceChars, h1, ih h2]

/-- The pattern is removed where it first occurs: if it is not a prefix of the text at any
position before the end of `a`, then `a ++ pat ++ b` becomes `a ++ b`. -/
theorem replaceChars_first_occurrence (pat b : List Char) (hp : Not (pat = [])) :
    forall a : List Char,
      (forall k, k < a.length -> pat.isPrefixOf ((a ++ pat ++ b).drop k) = false) ->
      replaceChars pat [] (a ++ pat ++ b) = a ++ b := by
  intro a
  induction a with
  | nil =>
    intro _
    simpa using replaceChars_append pat [] b hp
  | cons c cs ih =>
    intro h
    have h0 : pat.isPrefixOf (c :: (cs ++ pat ++ b)) = false := by
      have := h 0 (by simp)
      simpa using this
    have hrec : forall k, k < cs.length ->
        pat.isPrefixOf ((cs ++ pat ++ b).drop k) = false := by
      intro k hk
      have := h (k + 1) (by simpa using hk)
      simpa using this
    show replaceChars pat [] (c :: (cs ++ pat ++ b)) = c :: (cs ++ b)
    simp only [replaceChars, h0, Bool.false_eq_true, if_false, ih hrec]

/-- Two requests with the same extracted token and the same principal on entry are
treated alike: same events, same principal at the end. -/
theorem auth_events_of_token_eq {U : Type} (env : Env U) (req1 req2 : Request U)
    (hx : extractToken req2 = extractToken req1) (hu : req2.user = req1.user) :
    (auth env req1).events = (auth env req2).events /\
      (auth env req1).req.user = (auth env req2).req.user := by
  rcases auth_cases env req1 with
    ⟨hf, hrun⟩ | ⟨t, e, ht, hne, hv, hrun⟩ | ⟨t, d, e, ht, hne, hv, hl, hrun⟩ |
    ⟨t, d, ht, hne, hv, hl, hrun⟩ | ⟨t, d, u, ht, hne, hv, hl, hrun⟩
  . rw [hrun, auth_run_falsy env req2 (by rw [hx]; exact hf)]
    simp [hu]
  . rw [hrun, auth_run_verify_error env req2 t e (by rw [hx]; exact ht) hne hv,
      onError_run, onError_run]
    simp [hu]
  . rw [hrun, auth_run_lookup_error env req2 t d e (by rw [hx]; exact ht) hne hv hl,
      onError_run, onError_run]
    simp [hu]
  . rw [hrun, auth_run_not_found env req2 t d (by rw [hx]; exact ht) hne hv hl]
    simp [hu]
  . rw [hrun, auth_run_found env req2 t d u (by rw [hx]; exact ht) hne hv hl]
    simp

/-- Claim C17. Token extraction removes the first occurrence of `Bearer ` from the header:
a header `a ++ "Bearer " ++ b` with no occurrence starting inside `a` yields `a ++ b`, and
in particular the header `Bearer ` followed by `t` yields the token `t`.  For every `t`
that does not contain `Bearer `, the headers `t` and `Bearer ` followed by `t` yield the
same token and the middleware records the same events and leaves the same principal:
the marker is optional. -/
theorem extractToken_bearer_optional {U : Type} (env : Env U) (t : String)
    (user : Option U) :
    extractToken (Request.mk (some ("Bearer " ++ t)) user) = some t /\
    (Not (List.IsInfix "Bearer ".data t.data) ->
      extractToken (Request.mk (some t) user) =
          extractToken (Request.mk (some ("Bearer " ++ t)) user) /\
        (auth env (Request.mk (some t) user)).events =
          (auth env (Request.mk (some ("Bearer " ++ t)) user)).events /\
        (auth env (Request.mk (some t) user)).req.user =
          (auth env (Request.mk (some ("Bearer " ++ t)) user)).req.user) /\
    (forall a b : String,
      (forall k, k < a.length ->
        startsWith (String.mk ((a ++ "Bearer " ++ b).data.drop k)) "Bearer " = false) ->
      extractToken (Request.mk (some (a ++ "Bearer " ++ b)) user) = some (a ++ b)) := by
  have h1 : extractToken (Request.mk (some ("Bearer " ++ t)) user) = some t := by
    simp [extractToken, replace_bearer_append]
  refine And.intro h1 (And.intro ?_ ?_)
  . intro hn
    have h2 : extractToken (Request.mk (some t) user) = some t := by
      have := replaceChars_of_not_infix "Bearer ".data [] t.data hn
      simp [extractToken, replace, this]
    have h3 := auth_events_of_token_eq env (Request.mk (some t) user)
      (Request.mk (some ("Bearer " ++ t)) user) (by rw [h1, h2]) rfl
    exact And.intro (by rw [h1, h2]) h3
  . intro a b h
    have h4 := replaceChars_first_occurrence "Bearer ".data b.data (by decide) a.data
      (by
        intro k hk
        have := h k (by simpa using hk)
        simpa [startsWith] using this)
    simp only [extractToken, Option.map_some', replace, String.data_append]
    rw [h4]
    rfl

/-- Claim C17 at the token `good`, with and without the marker. -/
theorem extractToken_bearer_optional_witness :
    Not (List.IsInfix "Bearer ".data "good".data) /\
    (extractToken (requestWith (some ("Bearer " ++ "good"))) = some "good" /\
    (Not (List.IsInfix "Bearer ".data "good".data) ->
      extractToken (requestWith (some "good")) =
          extractToken (requestWith (some ("Bearer " ++ "good"))) /\
        (auth sampleEnv (requestWith (some "good"))).events =
          (auth sampleEnv (requestWith (some ("Bearer " ++ "good")))).events /\
        (auth sampleEnv (requestWith (some "good"))).req.user =
          (auth sampleEnv (requestWith (some ("Bearer " ++ "good")))).req.user) /\
    (forall a b : String,
      (forall k, k < a.length ->
        startsWith (String.mk ((a ++ "Bearer " ++ b).data.drop k)) "Bearer " = false) ->
      extractToken (requestWith (some (a ++ "Bearer " ++ b))) = some (a ++ b))) :=
  And.intro (by decide) (extractToken_bearer_optional sampleEnv "good" none)

/-- The first occurrence is the one removed, wherever it is: a header with text before the
marker keeps that text, and a second marker is kept. -/
theorem extractToken_examples :
    extractToken (requestWith (some "xBearer good")) = some "xgood" /\
    extractToken (requestWith (some "Bearer Bearer good")) = some "Bearer good" /\
    extractToken (requestWith (some "bearer good")) = some "bearer good" := by
  decide

/-! ## The claims about the task routes -/

/-- Claim C12 fails as stated in its last part: `abc` is the id of no task, and a store
that rejects it because it is not an ObjectId makes `PUT /:id` and `DELETE /:id` answer
500, not 404. -/
theorem unknown_task_id_server_error :
    (sampleWorld.tasks.find? fun t => t._id == "abc") = none /\
    Task.findById strictLib sampleWorld "abc" =
      .error (JsError.mk "CastError"
        "Cast to ObjectId failed for value \"abc\" (type string) at path \"_id\" for model \"Task\"") /\
    (putTask strictLib sampleWorld (PutRequest.mk "abc" bob emptyBody none)).2.status = 500 /\
    (deleteTask strictLib sampleWorld (DeleteRequest.mk "abc" bob)).2.status = 500 /\
    Not ((putTask strictLib sampleWorld (PutRequest.mk "abc" bob emptyBody none)).2.status
      = 404) /\
    Not ((deleteTask strictLib sampleWorld (DeleteRequest.mk "abc" bob)).2.status = 404) := by
  decide

/-- Claim C12, amended. Only the owner can edit or delete a task: when the task exists and
the authenticated user's id differs from its `clientId`, `PUT /:id` and `DELETE /:id`
answer with status 403 and success=false and leave the world as it was (the stored task
is unchanged and not removed, no image file is handed to `fs.unlink`).  When the lookup
finds no task with the id, both answer 404; when the lookup throws on the id (as it does
for an id that is not an ObjectId), both answer 500 with the message of the error; in
both cases the world is left as it was. -/
theorem only_owner_edits_or_deletes (lib : Lib) (w : World) (id : String) (user : User)
    (body : UpdateBody) (files : Option (List String)) :
    (forall task, Task.findById lib w id = .ok (some task) ->
      Not (user.id = task.clientId) ->
      putTask lib w (PutRequest.mk id user body files) =
          (w, TaskResponse.mk 403 false "Unauthorized to edit this task" none) /\
        deleteTask lib w (DeleteRequest.mk id user) =
          (w, TaskResponse.mk 403 false "Unauthorized to delete this task" none)) /\
    (Task.findById lib w id = .ok none ->
      putTask lib w (PutRequest.mk id user body files) =
          (w, TaskResponse.mk 404 false "Task not found" none) /\
        deleteTask lib w (DeleteRequest.mk id user) =
          (w, TaskResponse.mk 404 false "Task not found" none)) /\
    (forall e, Task.findById lib w id = .error e ->
      putTask lib w (PutRequest.mk id user body files) =
          (w, TaskResponse.mk 500 false ("Server error: " ++ e.message) none) /\
        deleteTask lib w (DeleteRequest.mk id user) =
          (w, TaskResponse.mk 500 false ("Server error: " ++ e.message) none)) /\
    (lib.queryError id = none ->
      (Task.findById lib w id = .ok none <-> forall t, t ∈ w.tasks -> Not (t._id = id))) /\
    (forall e, lib.queryError id = some e -> Task.findById lib w id = .error e) := by
  refine And.intro ?_ (And.intro ?_ (And.intro ?_ (And.intro ?_ ?_)))
  . intro task hfind hne
    have hne2 : Not (task.clientId = user.id) := fun h => hne h.symm
    simp [putTask, tryPutTask, deleteTask, tryDeleteTask, hfind, hne2]
  . intro hfind
    simp [putTask, tryPutTask, deleteTask, tryDeleteTask, hfind]
  . intro e hfind
    simp [putTask, tryPutTask, deleteTask, tryDeleteTask, hfind]
  . intro hq
    simp [Task.findById, hq]
  . intro e hq
    simp [Task.findById, hq]

/-- Claim C12, amended, at the task of `alice`, which `bob` tries to edit and to delete,
at an id that no task has, and at an id that the store rejects. -/
theorem only_owner_edits_or_deletes_witness :
    Task.findById sampleLib sampleWorld "t1" = .ok (some sampleTask) /\
    Not (bob.id = sampleTask.clientId) /\
    Task.findById sampleLib sampleWorld "t404" = .ok none /\
    Task.findById strictLib sampleWorld "abc" =
      .error (JsError.mk "CastError"
        "Cast to ObjectId failed for value \"abc\" (type string) at path \"_id\" for model \"Task\"") /\
    (putTask sampleLib sampleWorld (PutRequest.mk "t1" bob emptyBody (some ["n.png"])) =
        (sampleWorld, TaskResponse.mk 403 false "Unauthorized to edit this task" none) /\
      deleteTask sampleLib sampleWorld (DeleteRequest.mk "t1" bob) =
        (sampleWorld, TaskResponse.mk 403 false "Unauthorized to delete this task" none)) /\
    (putTask sampleLib sampleWorld (PutRequest.mk "t404" bob emptyBody (some ["n.png"])) =
        (sampleWorld, TaskResponse.mk 404 false "Task not found" none) /\
      deleteTask sampleLib sampleWorld (DeleteRequest.mk "t404" bob) =
        (sampleWorld, TaskResponse.mk 404 false "Task not found" none)) /\
    (putTask strictLib sampleWorld (PutRequest.mk "abc" bob emptyBody (some ["n.png"])) =
        (sampleWorld, TaskResponse.mk 500 false
          ("Server error: " ++ (JsError.mk "CastError"
            "Cast to ObjectId failed for value \"abc\" (type string) at path \"_id\" for model \"Task\"").message)
          none) /\
      deleteTask strictLib sampleWorld (DeleteRequest.mk "abc" bob) =
        (sampleWorld, TaskResponse.mk 500 false
          ("Server error: " ++ (JsError.mk "CastError"
            "Cast to ObjectId failed for value \"abc\" (type string) at path \"_id\" for model \"Task\"").message)
          none)) :=
  And.intro (by decide) (And.intro (by decide) (And.intro (by decide) (And.intro (by decide)
    (And.intro
      ((only_owner_edits_or_deletes sampleLib sampleWorld "t1" bob emptyBody
        (some ["n.png"])).1 sampleTask (by decide) (by decide))
      (And.intro
        ((only_owner_edits_or_deletes sampleLib sampleWorld "t404" bob emptyBody
          (some ["n.png"])).2.1 (by decide))
        ((only_owner_edits_or_deletes strictLib sampleWorld "abc" bob emptyBody
          (some ["n.png"])).2.2.1 _ (by decide)))))))

/-- A successful update, step by step: the task found, the three parsed texts, the images
removed, the values assigned, the cast document, and the world and response that result. -/
theorem putTask_success (lib : Lib) (w : World) (req : PutRequest)
    (hok : (putTask lib w req).2.success = true) :
    exists task pb pc pe removed assigned existing saved,
      Task.findById lib w req.id = .ok (some task) /\
      task.clientId = req.user.id /\
      parseOr lib req.body.budget (.object []) = .ok pb /\
      parseOr lib req.body.contact (.object []) = .ok pc /\
      parseOr lib req.body.existingImages (.array []) = .ok pe /\
      removedImages lib pe task.images = .ok removed /\
      (unlinkLoop lib removed).2 = none /\
      assignFields lib task req.body pb pc = .ok assigned /\
      pe.spread lib = .ok existing /\
      castTask lib { assigned with images := existing ++ (req.files.getD []).map JsValue.str }
        = some saved /\
      putTask lib w req =
        (World.saveTask (World.mk w.tasks w.providers
            (w.unlinked ++ (unlinkLoop lib removed).1)) saved,
         TaskResponse.mk 200 true "Task updated successfully" (some saved)) := by
  unfold putTask tryPutTask at hok
  unfold putTask tryPutTask
  cases h1 : Task.findById lib w req.id with
  | error e => simp [h1] at hok
  | ok o =>
    cases o with
    | none => simp [h1] at hok
    | some task =>
      by_cases hc : task.clientId = req.user.id
      case neg => simp [h1, hc] at hok
      case pos =>
        cases h2 : parseOr lib req.body.budget (.object []) with
        | error e => simp [h1, hc, h2] at hok
        | ok pb =>
          cases h3 : parseOr lib req.body.contact (.object []) with
          | error e => simp [h1, hc, h2, h3] at hok
          | ok pc =>
            cases h4 : parseOr lib req.body.existingImages (.array []) with
            | error e => simp [h1, hc, h2, h3, h4] at hok
            | ok pe =>
              cases h5 : removedImages lib pe task.images with
              | error e => simp [h1, hc, h2, h3, h4, h5] at hok
              | ok removed =>
                cases h6 : (unlinkLoop lib removed).2 with
                | some e => simp [h1, hc, h2, h3, h4, h5, h6] at hok
                | none =>
                  cases h7 : assignFields lib task req.body pb pc with
                  | error e => simp [h1, hc, h2, h3, h4, h5, h6, h7] at hok
                  | ok assigned =>
                    cases h8 : pe.spread lib with
                    | error e => simp [h1, hc, h2, h3, h4, h5, h6, h7, h8] at hok
                    | ok existing =>
                      cases h9 : castTask lib
                          { assigned with
                            images := existing ++ (req.files.getD []).map JsValue.str } with
                      | none => simp [h1, hc, h2, h3, h4, h5, h6, h7, h8, h9] at hok
                      | some saved =>
                        cases h10 : lib.saveTaskError saved with
                        | some e =>
                          simp [h1, hc, h2, h3, h4, h5, h6, h7, h8, h9, h10] at hok
                        | none =>
                          refine Exists.intro task (Exists.intro pb (Exists.intro pc
                            (Exists.intro pe (Exists.intro removed (Exists.intro assigned
                              (Exists.intro existing (Exists.intro saved ?_)))))))
                          simp [hc, h2, h3, h4, h5, h6, h7, h8, h9, h10]

/-- On an array, `includes` is list membership. -/
theorem any_sameValueZero (img : JsValue) :
    forall items : List JsValue,
      (items.any fun x => x.sameValueZero img) = decide (img ∈ items) := by
  intro items
  induction items with
  | nil => simp
  | cons x xs ih =>
    simp only [JsValue.sameValueZero] at ih
    simp only [List.any_cons, List.mem_cons, JsValue.sameValueZero, ih]
    by_cases hx : x = img
    . subst hx
      simp
    . have hx2 : Not (img = x) := fun h => hx h.symm
      simp [hx, hx2]

/-- Against an array, line 150 keeps the images that are not among its items. -/
theorem removedImages_array (lib : Lib) (items : List JsValue) :
    forall images : List JsValue,
      removedImages lib (.array items) images =
        .ok (images.filter fun img => decide (Not (img ∈ items))) := by
  intro images
  induction images with
  | nil => rfl
  | cons img rest ih =>
    simp only [removedImages, Parsed.includes, ih, List.filter_cons, any_sameValueZero]
    by_cases hm : img ∈ items <;> simp [hm]

/-- When the loop of lines 152-160 ends without an error, every image was a string and
was handed to `fs.unlink`. -/
theorem unlinkLoop_ok (lib : Lib) :
    forall l : List JsValue, (unlinkLoop lib l).2 = none ->
      (unlinkLoop lib l).1.map JsValue.str = l := by
  intro l
  induction l with
  | nil => intro _; rfl
  | cons img rest ih =>
    intro h
    cases img with
    | str name =>
      simp only [unlinkLoop] at h
      simp only [unlinkLoop, List.map_cons, ih h]
    | undefined => simp [unlinkLoop] at h
    | null => simp [unlinkLoop] at h
    | bool b => simp [unlinkLoop] at h
    | num q => simp [unlinkLoop] at h
    | object r => simp [unlinkLoop] at h

/-- The assignments of lines 166-179, spelled out. -/
theorem assignFields_ok (lib : Lib) (task assigned : Task) (body : UpdateBody)
    (pb pc : Parsed) (h : assignFields lib task body pb pc = .ok assigned) :
    exists min max phone additionalContact,
      pb.get lib "min" = .ok min /\ pb.get lib "max" = .ok max /\
      pc.get lib "phone" = .ok phone /\
      pc.get lib "additionalContact" = .ok additionalContact /\
      assigned =
        { _id := task._id
          title := body.title.or task.title
          category := body.category.or task.category
          description := body.description.or task.description
          location := body.location.or task.location
          dueDate := if body.dueDate.truthy then JsDate.ofValue body.dueDate else task.dueDate
          budget := Budget.mk (min.or task.budget.min) (max.or task.budget.max)
          contact := Contact.mk (phone.or task.contact.phone)
            (additionalContact.or task.contact.additionalContact)
          images := task.images
          clientId := task.clientId
          status := task.status } := by
  unfold assignFields at h
  cases h1 : pb.get lib "min" with
  | error e => simp [h1] at h
  | ok min =>
    cases h2 : pb.get lib "max" with
    | error e => simp [h1, h2] at h
    | ok max =>
      cases h3 : pc.get lib "phone" with
      | error e => simp [h1, h2, h3] at h
      | ok phone =>
        cases h4 : pc.get lib "additionalContact" with
        | error e => simp [h1, h2, h3, h4] at h
        | ok additionalContact =>
          simp only [h1, h2, h3, h4, Except.ok.injEq] at h
          exact Exists.intro min (Exists.intro max (Exists.intro phone
            (Exists.intro additionalContact
              (And.intro rfl (And.intro rfl (And.intro rfl (And.intro rfl h.symm)))))))

/-- What a property read of lines 172-178 yields: the field of a parsed object,
`undefined` for a parsed array or a primitive other than null. -/
theorem parsed_get_ok (lib : Lib) (p : Parsed) (key : String) (v : JsValue)
    (h : p.get lib key = .ok v) :
    (forall fields, p = .object fields -> v = (fields.lookup key).getD .undefined) /\
      ((forall fields, Not (p = .object fields)) -> v = .undefined) := by
  cases p with
  | object fields =>
    simp only [Parsed.get, Except.ok.injEq] at h
    refine And.intro ?_ ?_
    . intro f hf
      simp only [Parsed.object.injEq] at hf
      subst hf
      exact h.symm
    . intro hno
      exact absurd rfl (hno fields)
  | array items =>
    simp only [Parsed.get, Except.ok.injEq] at h
    exact And.intro (fun f hf => Parsed.noConfusion hf) (fun _ => h.symm)
  | value x =>
    cases x <;> simp [Parsed.get] at h <;>
      exact And.intro (fun f hf => Parsed.noConfusion hf) (fun _ => h.symm)

/-- The cast document, path by path. -/
theorem castTask_ok (lib : Lib) (raw saved : Task) (h : castTask lib raw = some saved) :
    castTitlePath lib raw.title = some saved.title /\
    castStringPath lib raw.category = some saved.category /\
    castStringPath lib raw.description = some saved.description /\
    castStringPath lib raw.location = some saved.location /\
    castDatePath lib raw.dueDate = some saved.dueDate /\
    castNumberPath lib raw.budget.min = some saved.budget.min /\
    castNumberPath lib raw.budget.max = some saved.budget.max /\
    castStringPath lib raw.contact.phone = some saved.contact.phone /\
    castStringPath lib raw.contact.additionalContact = some saved.contact.additionalContact /\
    castImages lib raw.images = some saved.images /\
    saved._id = raw._id /\ saved.clientId = raw.clientId /\ saved.status = raw.status := by
  unfold castTask at h
  split at h
  . rename_i e1 e2 e3 e4 e5 e6 e7 e8 e9 e10
    simp only [Option.some.injEq] at h
    subst h
    simp [e1, e2, e3, e4, e5, e6, e7, e8, e9, e10]
  . exact absurd h (by simp)

/-- Casting a list that ends in strings casts the part before them and keeps them. -/
theorem castImages_append_strings (lib : Lib) (names : List String) :
    forall (items r : List JsValue),
      castImages lib (items ++ names.map JsValue.str) = some r ->
      exists castItems, castImages lib items = some castItems /\
        r = castItems ++ names.map JsValue.str := by
  intro items
  induction items with
  | nil =>
    intro r h
    refine Exists.intro [] (And.intro rfl ?_)
    simp only [List.nil_append] at h
    induction names generalizing r with
    | nil =>
      simp only [List.map_nil, castImages, Option.some.injEq] at h
      simp [h.symm]
    | cons n ns ihn =>
      simp only [List.map_cons, castImages, castStringPath] at h
      cases hrest : castImages lib (ns.map JsValue.str) with
      | none => simp [hrest] at h
      | some ys =>
        simp only [hrest, Option.some.injEq] at h
        have := ihn ys hrest
        simp only [List.nil_append] at this
        rw [← h, this]
        simp
  | cons x xs ih =>
    intro r h
    simp only [List.cons_append, castImages, List.append_eq] at h
    cases hx : castStringPath lib x with
    | none => simp [hx] at h
    | some y =>
      cases hrest : castImages lib (xs ++ names.map JsValue.str) with
      | none => simp [hx, hrest] at h
      | some ys =>
        simp only [hx, hrest, Option.some.injEq] at h
        obtain ⟨ci, hci, hys⟩ := ih ys hrest
        refine Exists.intro (y :: ci) (And.intro ?_ ?_)
        . simp [castImages, hx, hci]
        . rw [← h, hys]
          simp

/-- A list of strings is cast to itself. -/
theorem castImages_strings (lib : Lib) :
    forall (items r : List JsValue), (forall x, x ∈ items -> exists s, x = JsValue.str s) ->
      castImages lib items = some r -> r = items := by
  intro items
  induction items with
  | nil =>
    intro r _ h
    simp only [castImages, Option.some.injEq] at h
    exact h.symm
  | cons x xs ih =>
    intro r hall h
    obtain ⟨s, hs⟩ := hall x (List.mem_cons_self x xs)
    subst hs
    simp only [castImages, castStringPath] at h
    cases hrest : castImages lib xs with
    | none => simp [hrest] at h
    | some ys =>
      simp only [hrest, Option.some.injEq] at h
      rw [← h, ih ys (fun y hy => hall y (List.mem_cons_of_mem _ hy)) hrest]

/-- A found task is in the collection and carries the id that was asked for. -/
theorem task_findById_some (lib : Lib) (w : World) (id : String) (task : Task)
    (h : Task.findById lib w id = .ok (some task)) : task ∈ w.tasks /\ task._id = id := by
  unfold Task.findById at h
  cases hq : lib.queryError id with
  | some e => simp [hq] at h
  | none =>
    simp only [hq, Except.ok.injEq] at h
    have h1 := List.mem_of_find?_eq_some h
    have h2 := List.find?_some h
    exact And.intro h1 (by simpa using h2)

/-- Claim C15 fails as stated: with `existingImages` the text `[1]`, a successful update
does not store the supplied list `[1]` followed by the upload, but the strings `"1"` and
`"n.png"`: the schema declares the images as `[String]` and casts every entry. -/
theorem update_images_are_cast :
    sampleLib.parse (JsValue.str "[1]") = .ok (.array [.num 1]) /\
    (putTask sampleLib sampleWorld (PutRequest.mk "t1" alice
      { emptyBody with existingImages := .str "[1]" } (some ["n.png"]))).2.success = true /\
    (putTask sampleLib sampleWorld (PutRequest.mk "t1" alice
      { emptyBody with existingImages := .str "[1]" } (some ["n.png"]))).2.task =
        some { sampleTask with images := [.str "1", .str "n.png"] } /\
    Not ((putTask sampleLib sampleWorld (PutRequest.mk "t1" alice
      { emptyBody with existingImages := .str "[1]" } (some ["n.png"]))).2.task =
        some { sampleTask with images := [.num 1, .str "n.png"] }) := by
  decide

/-- Claim C15, amended. On a successful update of a task (which only its owner obtains),
with `existingImages` parsing to the list `items` (the empty list when the field is
absent): the stored task is replaced by the saved one, whose images are the entries of
`items`, each cast to a String by the schema (a list of strings is kept as it is),
followed by the file names of the new uploads, in that order; the files handed to
`fs.unlink` are exactly the previous images that do not occur in `items`; with
`existingImages` absent every previous image is handed to `fs.unlink` and the images are
just the new uploads. -/
theorem update_images (lib : Lib) (w : World) (req : PutRequest) (task : Task)
    (items : List JsValue)
    (hfind : Task.findById lib w req.id = .ok (some task))
    (hparse : parseOr lib req.body.existingImages (.array []) = .ok (.array items))
    (hok : (putTask lib w req).2.success = true) :
    exists saved castItems names,
      task.clientId = req.user.id /\
      task ∈ w.tasks /\
      putTask lib w req =
        (World.mk (w.tasks.map fun t => if t._id = task._id then saved else t) w.providers
            (w.unlinked ++ names),
          TaskResponse.mk 200 true "Task updated successfully" (some saved)) /\
      saved._id = task._id /\
      castImages lib items = some castItems /\
      saved.images = castItems ++ (req.files.getD []).map JsValue.str /\
      ((forall x, x ∈ items -> exists s, x = JsValue.str s) -> castItems = items) /\
      names.map JsValue.str = task.images.filter (fun img => decide (Not (img ∈ items))) /\
      (req.body.existingImages.truthy = false ->
        saved.images = (req.files.getD []).map JsValue.str /\
        names.map JsValue.str = task.images) := by
  obtain ⟨task2, pb, pc, pe, removed, assigned, existing, saved, h1, hc, _, _, h4, h5, h6,
    h7, h8, h9, hrun⟩ := putTask_success lib w req hok
  rw [hfind] at h1
  have ht : task2 = task := by
    simp only [Except.ok.injEq, Option.some.injEq] at h1
    exact h1.symm
  subst ht
  rw [hparse] at h4
  have hp : pe = .array items := by
    simp only [Except.ok.injEq] at h4
    exact h4.symm
  subst hp
  rw [removedImages_array] at h5
  have hrem : removed = task2.images.filter fun img => decide (Not (img ∈ items)) := by
    simp only [Except.ok.injEq] at h5
    exact h5.symm
  have hex : existing = items := by
    simp only [Parsed.spread, Except.ok.injEq] at h8
    exact h8.symm
  subst hex
  have hnames := unlinkLoop_ok lib removed h6
  obtain ⟨_, _, _, _, _, _, _, _, hassigned⟩ :=
    assignFields_ok lib task2 assigned req.body pb pc h7
  have hmem := task_findById_some lib w req.id task2 hfind
  have hcast := castTask_ok lib _ saved h9
  have himg := hcast.2.2.2.2.2.2.2.2.2.1
  have hid : saved._id = task2._id := by
    rw [hcast.2.2.2.2.2.2.2.2.2.2.1, hassigned]
  simp only at himg
  obtain ⟨castItems, hci, hsaved⟩ :=
    castImages_append_strings lib (req.files.getD []) existing saved.images himg
  refine Exists.intro saved (Exists.intro castItems
    (Exists.intro (unlinkLoop lib removed).1 ?_))
  refine And.intro hc (And.intro hmem.1 (And.intro ?_ (And.intro hid (And.intro hci
    (And.intro hsaved (And.intro ?_ (And.intro ?_ ?_)))))))
  . rw [hrun]
    simp only [World.saveTask, hid]
  . intro hall
    exact castImages_strings lib existing castItems hall hci
  . rw [hnames, hrem]
  . intro hfalsy
    have h0 : existing = [] := by
      simp only [parseOr, hfalsy, Bool.false_eq_true, if_false, Except.ok.injEq,
        Parsed.array.injEq] at hparse
      exact hparse.symm
    subst h0
    simp only [castImages, Option.some.injEq] at hci
    rw [hsaved, hnames, hrem, ← hci]
    simp

/-- Claim C15, amended, at an update by `alice` that keeps `a.png` and uploads `n.png`:
`b.png` is handed to `fs.unlink` and the stored task holds `a.png` and `n.png`. -/
theorem update_images_witness :
    Task.findById sampleLib sampleWorld "t1" = .ok (some sampleTask) /\
    parseOr sampleLib (JsValue.str "[\"a.png\"]") (.array []) =
      .ok (.array [.str "a.png"]) /\
    (putTask sampleLib sampleWorld (PutRequest.mk "t1" alice
      { emptyBody with existingImages := .str "[\"a.png\"]" } (some ["n.png"]))).2.success
      = true /\
    putTask sampleLib sampleWorld (PutRequest.mk "t1" alice
      { emptyBody with existingImages := .str "[\"a.png\"]" } (some ["n.png"])) =
      (World.mk [{ sampleTask with images := [.str "a.png", .str "n.png"] }]
          [sampleProvider] ["b.png"],
        TaskResponse.mk 200 true "Task updated successfully"
          (some { sampleTask with images := [.str "a.png", .str "n.png"] })) /\
    (exists saved castItems names,
      sampleTask.clientId = alice.id /\
      sampleTask ∈ sampleWorld.tasks /\
      putTask sampleLib sampleWorld (PutRequest.mk "t1" alice
        { emptyBody with existingImages := .str "[\"a.png\"]" } (some ["n.png"])) =
        (World.mk (sampleWorld.tasks.map fun t => if t._id = sampleTask._id then saved else t)
            sampleWorld.providers (sampleWorld.unlinked ++ names),
          TaskResponse.mk 200 true "Task updated successfully" (some saved)) /\
      saved._id = sampleTask._id /\
      castImages sampleLib [JsValue.str "a.png"] = some castItems /\
      saved.images = castItems ++ ((some ["n.png"]).getD []).map JsValue.str /\
      ((forall x, x ∈ [JsValue.str "a.png"] -> exists s, x = JsValue.str s) ->
        castItems = [JsValue.str "a.png"]) /\
      names.map JsValue.str =
        sampleTask.images.filter (fun img => decide (Not (img ∈ [JsValue.str "a.png"]))) /\
      ((JsValue.str "[\"a.png\"]").truthy = false ->
        saved.images = ((some ["n.png"]).getD []).map JsValue.str /\
        names.map JsValue.str = sampleTask.images)) :=
  And.intro (by decide) (And.intro (by decide) (And.intro (by decide) (And.intro (by decide)
    (update_images sampleLib sampleWorld (PutRequest.mk "t1" alice
      { emptyBody with existingImages := .str "[\"a.png\"]" } (some ["n.png"]))
      sampleTask [.str "a.png"] (by decide) (by decide) (by decide)))))

/-- Claim C18 fails as stated in its last part: a supplied truthy value is not stored as
supplied.  The title ` Fix the tap ` is stored trimmed and the budget minimum given as
the text `80` is stored as the number 80 (`models/Task.js`: `trim: true`, `Number`). -/
theorem update_casts_supplied_values :
    (JsValue.str " Fix the tap ").truthy = true /\
    sampleLib.parse (JsValue.str "\x7b\"min\":\"80\"\x7d") =
      .ok (.object [("min", .str "80")]) /\
    (JsValue.str "80").truthy = true /\
    (putTask sampleLib sampleWorld (PutRequest.mk "t1" alice
      { emptyBody with
        title := .str " Fix the tap ", budget := .str "\x7b\"min\":\"80\"\x7d" }
      none)).2 =
      TaskResponse.mk 200 true "Task updated successfully"
        (some { sampleTask with
          title := .str "Fix the tap"
          budget := Budget.mk (.num 80) (.num 100)
          images := [] }) /\
    Not (JsValue.str "Fix the tap" = JsValue.str " Fix the tap ") /\
    Not (JsValue.num 80 = JsValue.str "80") := by
  decide

/-- Claim C18, amended. In a successful task update each of title, category, description,
location, budget.min, budget.max, contact.phone and contact.additionalContact is set to
the schema's cast of `supplied || previous`: of the previous value when the supplied one
is falsy (absent, null, the empty string, 0), of the supplied value when that is truthy.
For the budget and the contact the supplied value is the field of the parsed JSON text,
`undefined` when the text is absent or does not parse to an object.  The cast keeps a
string on a String path and a number on a Number path and trims a title.  In particular
an update whose budget parses to `{min: 0}` leaves a numeric `budget.min` as it was. -/
theorem update_keeps_falsy_fields (lib : Lib) (w : World) (req : PutRequest) (task : Task)
    (pb pc : Parsed)
    (hfind : Task.findById lib w req.id = .ok (some task))
    (hpb : parseOr lib req.body.budget (.object []) = .ok pb)
    (hpc : parseOr lib req.body.contact (.object []) = .ok pc)
    (hok : (putTask lib w req).2.success = true) :
    exists saved min max phone additionalContact,
      (putTask lib w req).2 =
        TaskResponse.mk 200 true "Task updated successfully" (some saved) /\
      (putTask lib w req).1.tasks =
        (w.tasks.map fun t => if t._id = task._id then saved else t) /\
      task ∈ w.tasks /\
      ((forall fields, pb = .object fields ->
          min = (fields.lookup "min").getD .undefined /\
          max = (fields.lookup "max").getD .undefined) /\
        ((forall fields, Not (pb = .object fields)) ->
          min = .undefined /\ max = .undefined) /\
        (req.body.budget.truthy = false -> pb = .object [])) /\
      ((forall fields, pc = .object fields ->
          phone = (fields.lookup "phone").getD .undefined /\
          additionalContact = (fields.lookup "additionalContact").getD .undefined) /\
        ((forall fields, Not (pc = .object fields)) ->
          phone = .undefined /\ additionalContact = .undefined) /\
        (req.body.contact.truthy = false -> pc = .object [])) /\
      castTitlePath lib
        (if req.body.title.truthy = true then req.body.title else task.title) =
          some saved.title /\
      castStringPath lib
        (if req.body.category.truthy = true then req.body.category else task.category) =
          some saved.category /\
      castStringPath lib
        (if req.body.description.truthy = true then req.body.description
          else task.description) = some saved.description /\
      castStringPath lib
        (if req.body.location.truthy = true then req.body.location else task.location) =
          some saved.location /\
      castNumberPath lib (if min.truthy = true then min else task.budget.min) =
        some saved.budget.min /\
      castNumberPath lib (if max.truthy = true then max else task.budget.max) =
        some saved.budget.max /\
      castStringPath lib (if phone.truthy = true then phone else task.contact.phone) =
        some saved.contact.phone /\
      castStringPath lib
        (if additionalContact.truthy = true then additionalContact
          else task.contact.additionalContact) = some saved.contact.additionalContact /\
      ((forall s, castStringPath lib (.str s) = some (.str s)) /\
        (forall q, castNumberPath lib (.num q) = some (.num q)) /\
        (forall s, castTitlePath lib (.str s) = some (.str (lib.trim s)))) /\
      (JsValue.undefined.truthy = false /\ JsValue.null.truthy = false /\
        (JsValue.str "").truthy = false /\ (JsValue.num 0).truthy = false) /\
      (pb = .object [("min", .num 0)] ->
        forall m, task.budget.min = .num m -> saved.budget.min = .num m) := by
  obtain ⟨task2, pb2, pc2, pe, removed, assigned, existing, saved, h1, _, h2, h3, _, _, _,
    h7, _, h9, hrun⟩ := putTask_success lib w req hok
  rw [hfind] at h1
  have ht : task2 = task := by
    simp only [Except.ok.injEq, Option.some.injEq] at h1
    exact h1.symm
  subst ht
  rw [hpb] at h2
  have hb : pb2 = pb := by
    simp only [Except.ok.injEq] at h2
    exact h2.symm
  subst hb
  rw [hpc] at h3
  have hcn : pc2 = pc := by
    simp only [Except.ok.injEq] at h3
    exact h3.symm
  subst hcn
  obtain ⟨min, max, phone, additionalContact, g1, g2, g3, g4, hassigned⟩ :=
    assignFields_ok lib task2 assigned req.body pb2 pc2 h7
  have hmem := task_findById_some lib w req.id task2 hfind
  have hcast := castTask_ok lib _ saved h9
  subst hassigned
  simp only [JsValue.or] at hcast
  obtain ⟨c1, c2, c3, c4, _, c6, c7, c8, c9, _, cid, _, _⟩ := hcast
  have p1 := parsed_get_ok lib pb2 "min" min g1
  have p2 := parsed_get_ok lib pb2 "max" max g2
  have p3 := parsed_get_ok lib pc2 "phone" phone g3
  have p4 := parsed_get_ok lib pc2 "additionalContact" additionalContact g4
  have hfalsy : forall (x : JsValue) (p : Parsed),
      parseOr lib x (.object []) = .ok p -> x.truthy = false -> p = .object [] := by
    intro x p hp hx
    simp only [parseOr, hx, Bool.false_eq_true, if_false, Except.ok.injEq] at hp
    exact hp.symm
  refine Exists.intro saved (Exists.intro min (Exists.intro max (Exists.intro phone
    (Exists.intro additionalContact ?_))))
  rw [hrun]
  refine And.intro rfl (And.intro ?_ (And.intro hmem.1 (And.intro ?_ (And.intro ?_
    (And.intro c1 (And.intro c2 (And.intro c3 (And.intro c4 (And.intro c6 (And.intro c7
      (And.intro c8 (And.intro c9 (And.intro ?_ (And.intro ?_ ?_))))))))))))))
  . simp only [World.saveTask, cid]
  . exact And.intro (fun f hf => And.intro (p1.1 f hf) (p2.1 f hf))
      (And.intro (fun hno => And.intro (p1.2 hno) (p2.2 hno)) (hfalsy _ _ hpb))
  . exact And.intro (fun f hf => And.intro (p3.1 f hf) (p4.1 f hf))
      (And.intro (fun hno => And.intro (p3.2 hno) (p4.2 hno)) (hfalsy _ _ hpc))
  . exact And.intro (fun _ => rfl) (And.intro (fun _ => rfl) (fun _ => rfl))
  . simp [JsValue.truthy]
  . intro hp m hm
    have hmin : min = .num 0 := by
      have := (p1.1 _ hp).symm
      simpa [List.lookup] using this.symm
    subst hmin
    rw [hm] at c6
    simp only [JsValue.truthy, bne_self_eq_false, Bool.false_eq_true, if_false,
      castNumberPath, Option.some.injEq] at c6
    exact c6.symm

/-- Claim C18, amended, at an update by `alice` of her task, whose budget is 50 to 100,
with the budget text `{"min":80,"max":0}`: the minimum becomes 80, the maximum stays 100
and every other field keeps its value. -/
theorem update_keeps_falsy_fields_witness :
    Task.findById sampleLib sampleWorld "t1" = .ok (some sampleTask) /\
    parseOr sampleLib (JsValue.str "\x7b\"min\":80,\"max\":0\x7d") (.object []) =
      .ok (.object [("min", .num 80), ("max", .num 0)]) /\
    parseOr sampleLib JsValue.undefined (.object []) = .ok (.object []) /\
    (putTask sampleLib sampleWorld (PutRequest.mk "t1" alice
      { emptyBody with budget := .str "\x7b\"min\":80,\"max\":0\x7d" } none)).2.success
      = true /\
    (putTask sampleLib sampleWorld (PutRequest.mk "t1" alice
      { emptyBody with budget := .str "\x7b\"min\":80,\"max\":0\x7d" } none)).2 =
      TaskResponse.mk 200 true "Task updated successfully"
        (some { sampleTask with budget := Budget.mk (.num 80) (.num 100), images := [] }) /\
    (putTask sampleLib sampleWorld (PutRequest.mk "t1" alice
      { emptyBody with budget := .str "\x7b\"min\":0\x7d" } none)).2 =
      TaskResponse.mk 200 true "Task updated successfully"
        (some { sampleTask with images := [] }) /\
    (exists saved min max phone additionalContact,
      (putTask sampleLib sampleWorld (PutRequest.mk "t1" alice
        { emptyBody with budget := .str "\x7b\"min\":80,\"max\":0\x7d" } none)).2 =
        TaskResponse.mk 200 true "Task updated successfully" (some saved) /\
      (putTask sampleLib sampleWorld (PutRequest.mk "t1" alice
        { emptyBody with budget := .str "\x7b\"min\":80,\"max\":0\x7d" } none)).1.tasks =
        (sampleWorld.tasks.map fun t => if t._id = sampleTask._id then saved else t) /\
      sampleTask ∈ sampleWorld.tasks /\
      ((forall fields, Parsed.object [("min", .num 80), ("max", .num 0)] = .object fields ->
          min = (fields.lookup "min").getD .undefined /\
          max = (fields.lookup "max").getD .undefined) /\
        ((forall fields,
            Not (Parsed.object [("min", .num 80), ("max", .num 0)] = .object fields)) ->
          min = .undefined /\ max = .undefined) /\
        ((JsValue.str "\x7b\"min\":80,\"max\":0\x7d").truthy = false ->
          Parsed.object [("min", .num 80), ("max", .num 0)] = .object [])) /\
      ((forall fields, Parsed.object [] = .object fields ->
          phone = (fields.lookup "phone").getD .undefined /\
          additionalContact = (fields.lookup "additionalContact").getD .undefined) /\
        ((forall fields, Not (Parsed.object [] = .object fields)) ->
          phone = .undefined /\ additionalContact = .undefined) /\
        (JsValue.undefined.truthy = false -> Parsed.object [] = .object [])) /\
      castTitlePath sampleLib
        (if JsValue.undefined.truthy = true then JsValue.undefined else sampleTask.title) =
          some saved.title /\
      castStringPath sampleLib
        (if JsValue.undefined.truthy = true then JsValue.undefined
          else sampleTask.category) = some saved.category /\
      castStringPath sampleLib
        (if JsValue.undefined.truthy = true then JsValue.undefined
          else sampleTask.description) = some saved.description /\
      castStringPath sampleLib
        (if JsValue.undefined.truthy = true then JsValue.undefined
          else sampleTask.location) = some saved.location /\
      castNumberPath sampleLib (if min.truthy = true then min else sampleTask.budget.min) =
        some saved.budget.min /\
      castNumberPath sampleLib (if max.truthy = true then max else sampleTask.budget.max) =
        some saved.budget.max /\
      castStringPath sampleLib
        (if phone.truthy = true then phone else sampleTask.contact.phone) =
          some saved.contact.phone /\
      castStringPath sampleLib
        (if additionalContact.truthy = true then additionalContact
          else sampleTask.contact.additionalContact) =
          some saved.contact.additionalContact /\
      ((forall s, castStringPath sampleLib (.str s) = some (.str s)) /\
        (forall q, castNumberPath sampleLib (.num q) = some (.num q)) /\
        (forall s, castTitlePath sampleLib (.str s) = some (.str (sampleLib.trim s)))) /\
      (JsValue.undefined.truthy = false /\ JsValue.null.truthy = false /\
        (JsValue.str "").truthy = false /\ (JsValue.num 0).truthy = false) /\
      (Parsed.object [("min", .num 80), ("max", .num 0)] = .object [("min", .num 0)] ->
        forall m, sampleTask.budget.min = .num m -> saved.budget.min = .num m)) :=
  And.intro (by decide) (And.intro (by decide) (And.intro (by decide) (And.intro (by decide)
    (And.intro (by decide) (And.intro (by decide)
      (update_keeps_falsy_fields sampleLib sampleWorld (PutRequest.mk "t1" alice
        { emptyBody with budget := .str "\x7b\"min\":80,\"max\":0\x7d" } none)
        sampleTask (.object [("min", .num 80), ("max", .num 0)]) (.object [])
        (by decide) (by decide) (by decide) (by decide)))))))

/-! ## The claims about the provider routes -/

/-- Rating a provider changes nothing but `averageRating`. -/
theorem calculateRating_keeps (lib : Lib) (p : Provider) :
    (p.calculateRating lib).reviews = p.reviews /\ (p.calculateRating lib)._id = p._id /\
      (p.calculateRating lib).userId = p.userId := by
  unfold Provider.calculateRating
  split <;> exact And.intro rfl (And.intro rfl rfl)

/-- A found provider is in the collection. -/
theorem provider_findById_some (lib : Lib) (w : World) (id : String) (provider : Provider)
    (h : Provider.findById lib w id = .ok (some provider)) : provider ∈ w.providers := by
  unfold Provider.findById at h
  cases hq : lib.queryError id with
  | some e => simp [hq] at h
  | none =>
    simp only [hq, Except.ok.injEq] at h
    exact List.mem_of_find?_eq_some h

/-- A review request either leaves the world as it was, or it found the provider, found
no review by the requesting user, and saved the provider with the new review. -/
theorem addReview_cases (lib : Lib) (w : World) (req : ReviewRequest) :
    ((addReview lib w req).1 = w /\ (addReview lib w req).2.success = false) \/
    (exists provider,
      Provider.findById lib w req.id = .ok (some provider) /\
      (forall r, r ∈ provider.reviews -> Not (r.userId = req.user._id)) /\
      addReview lib w req =
        (w.saveProvider (reviewedProvider lib provider req),
          ProviderResponse.mk 200 true "Review added"
            (some (reviewedProvider lib provider req)))) := by
  unfold addReview tryAddReview
  cases h1 : Provider.findById lib w req.id with
  | error e => left; simp
  | ok o =>
    cases o with
    | none => left; simp
    | some provider =>
      cases h2 : provider.reviews.find? fun r => r.userId == req.user._id with
      | some r => left; simp [h2]
      | none =>
        cases h3 : lib.saveProviderError (reviewedProvider lib provider req) with
        | some e =>
          left
          simp only [reviewedProvider] at h3
          simp [h2, h3]
        | none =>
          right
          refine Exists.intro provider (And.intro rfl (And.intro ?_ ?_))
          . intro r hr heq
            have := List.find?_eq_none.mp h2 r hr
            simp [heq] at this
          . simp only [reviewedProvider] at h3
            simp [h2, h3, reviewedProvider]

/-- Claim C13. Duplicate reviews by the same user are prevented: when the provider's
reviews already hold an entry with the requesting user's id, `POST /:id/review` answers
success=false with message `You already reviewed this provider` and leaves the world (so
the provider's reviews and averageRating) as it was; hence, if the reviewer ids of every
provider's reviews are pairwise distinct before a review request, they are so after it. -/
theorem no_duplicate_reviews (lib : Lib) (w : World) (req : ReviewRequest) :
    (forall provider, Provider.findById lib w req.id = .ok (some provider) ->
      (exists r, r ∈ provider.reviews /\ r.userId = req.user.id) ->
      addReview lib w req =
        (w, ProviderResponse.mk 200 false "You already reviewed this provider" none)) /\
    ((forall p, p ∈ w.providers -> (p.reviews.map Review.userId).Nodup) ->
      forall p, p ∈ (addReview lib w req).1.providers ->
        (p.reviews.map Review.userId).Nodup) := by
  constructor
  . intro provider hfind hdup
    obtain ⟨r, hr, hid⟩ := hdup
    have hsome : (provider.reviews.find? fun r => r.userId == req.user._id).isSome = true := by
      rw [List.find?_isSome]
      exact Exists.intro r (And.intro hr (by simpa [User.id] using hid))
    simp [addReview, tryAddReview, hfind, hsome]
  . intro hdistinct p hp
    rcases addReview_cases lib w req with ⟨hw, _⟩ | ⟨provider, hfind, hnew, hrun⟩
    . rw [hw] at hp
      exact hdistinct p hp
    . rw [hrun] at hp
      simp only [World.saveProvider, List.mem_map] at hp
      obtain ⟨q, hq, hpq⟩ := hp
      by_cases hid : q._id = (reviewedProvider lib provider req)._id
      . rw [if_pos hid] at hpq
        subst hpq
        have hmem := provider_findById_some lib w req.id provider hfind
        have hnodup := hdistinct provider hmem
        simp only [reviewedProvider, (calculateRating_keeps lib _).1, List.map_append,
          List.map_cons, List.map_nil]
        rw [List.nodup_append]
        refine And.intro hnodup (And.intro (List.nodup_singleton _) ?_)
        intro a ha hb
        simp only [List.mem_singleton] at hb
        subst hb
        rw [List.mem_map] at ha
        obtain ⟨r, hr, hru⟩ := ha
        exact hnew r hr hru
      . rw [if_neg hid] at hpq
        subst hpq
        exact hdistinct q hq

/-- Claim C13 at a second review by `carol`, who has reviewed the sample provider. -/
theorem no_duplicate_reviews_witness :
    Provider.findById sampleLib sampleWorld "p1" = .ok (some sampleProvider) /\
    (exists r, r ∈ sampleProvider.reviews /\ r.userId = carol.id) /\
    (forall p, p ∈ sampleWorld.providers -> (p.reviews.map Review.userId).Nodup) /\
    addReview sampleLib sampleWorld (ReviewRequest.mk "p1" carol 5 (.str "Again")) =
      (sampleWorld,
        ProviderResponse.mk 200 false "You already reviewed this provider" none) /\
    (forall p,
      p ∈ (addReview sampleLib sampleWorld
        (ReviewRequest.mk "p1" carol 5 (.str "Again"))).1.providers ->
      (p.reviews.map Review.userId).Nodup) :=
  have hdup : exists r, r ∈ sampleProvider.reviews /\ r.userId = carol.id :=
    Exists.intro (Review.mk "u3" "carol@example.com" 4 (.str "Good"))
      (And.intro (by decide) (by decide))
  have hdistinct : forall p, p ∈ sampleWorld.providers ->
      (p.reviews.map Review.userId).Nodup := by
    intro p hp
    have hp2 : p = sampleProvider := by simpa [sampleWorld] using hp
    subst hp2
    decide
  And.intro (by decide) (And.intro hdup (And.intro hdistinct (And.intro
    ((no_duplicate_reviews sampleLib sampleWorld
      (ReviewRequest.mk "p1" carol 5 (.str "Again"))).1 sampleProvider (by decide) hdup)
    ((no_duplicate_reviews sampleLib sampleWorld
      (ReviewRequest.mk "p1" carol 5 (.str "Again"))).2 hdistinct))))

/-- A registration either leaves the world as it was, or it found no provider of the
requesting user and inserted one new provider, whose `userId` is the user's `_id`. -/
theorem registerProvider_cases (lib : Lib) (w : World) (req : RegisterRequest) :
    ((registerProvider lib w req).1 = w /\
      Not ((registerProvider lib w req).2.status = 201)) \/
    (exists provider,
      (forall p, p ∈ w.providers -> Not (p.userId = req.user._id)) /\
      provider.userId = req.user._id /\
      registerProvider lib w req =
        (w.insertProvider provider,
          ProviderResponse.mk 201 true "Provider registration submitted successfully!"
            (some provider))) := by
  unfold registerProvider tryRegisterProvider
  cases h1 : Provider.findOne lib w req.user._id with
  | error e => left; simp [h1]
  | ok o =>
    cases o with
    | some existing => left; simp [h1]
    | none =>
      have hnone : forall p, p ∈ w.providers -> Not (p.userId = req.user._id) := by
        intro p hp heq
        unfold Provider.findOne at h1
        cases hq : lib.queryError req.user._id with
        | some e => simp [hq] at h1
        | none =>
          simp only [hq, Except.ok.injEq] at h1
          have := List.find?_eq_none.mp h1 p hp
          simp [heq] at this
      cases h2 : lib.parse (req.body.skills.or (.str "[]")) with
      | error e => left; simp [h1, h2]
      | ok skills =>
        cases h3 : lib.parse (req.body.paymentMethods.or (.str "[]")) with
        | error e => left; simp [h1, h2, h3]
        | ok paymentMethods =>
          cases h4 : lib.saveProviderError
              (registeredProvider lib req skills paymentMethods) with
          | some e =>
            left
            simp only [registeredProvider] at h4
            simp [h1, h2, h3, h4]
          | none =>
            right
            refine Exists.intro (registeredProvider lib req skills paymentMethods)
              (And.intro hnone (And.intro rfl ?_))
            simp only [registeredProvider] at h4
            simp [h1, h2, h3, h4, registeredProvider]

/-- Claim C14. A user can register as a provider only once: in a store holding a provider
with the requesting user's userId (and answering the query), `POST /` answers with status
400, success=false and message `You have already registered as a provider.` and leaves
the store as it was; hence registration preserves that no two providers share a userId,
and a registration answered with 201 adds exactly one provider to the store, whose userId
is the authenticated user's id. -/
theorem register_only_once (lib : Lib) (w : World) (req : RegisterRequest) :
    ((exists p, p ∈ w.providers /\ p.userId = req.user._id) ->
      lib.queryError req.user._id = none ->
      registerProvider lib w req =
        (w, ProviderResponse.mk 400 false "You have already registered as a provider."
          none)) /\
    ((w.providers.map Provider.userId).Nodup ->
      ((registerProvider lib w req).1.providers.map Provider.userId).Nodup) /\
    ((registerProvider lib w req).2.status = 201 ->
      exists provider,
        (registerProvider lib w req).1.providers = w.providers ++ [provider] /\
        (registerProvider lib w req).1.tasks = w.tasks /\
        provider.userId = req.user.id /\
        (registerProvider lib w req).2.provider = some provider /\
        (forall p, p ∈ w.providers -> Not (p.userId = req.user.id))) := by
  refine And.intro ?_ (And.intro ?_ ?_)
  . intro hex hq
    obtain ⟨p, hp, hid⟩ := hex
    have hsome : (w.providers.find? fun p => p.userId == req.user._id).isSome = true := by
      rw [List.find?_isSome]
      exact Exists.intro p (And.intro hp (by simp [hid]))
    obtain ⟨found, hfound⟩ := Option.isSome_iff_exists.mp hsome
    simp [registerProvider, tryRegisterProvider, Provider.findOne, hq, hfound]
  . intro hnodup
    rcases registerProvider_cases lib w req with ⟨hw, _⟩ | ⟨provider, hnone, hid, hrun⟩
    . rw [hw]
      exact hnodup
    . rw [hrun]
      simp only [World.insertProvider, List.map_append, List.map_cons, List.map_nil]
      rw [List.nodup_append]
      refine And.intro hnodup (And.intro (List.nodup_singleton _) ?_)
      intro a ha hb
      simp only [List.mem_singleton] at hb
      subst hb
      rw [List.mem_map] at ha
      obtain ⟨q, hq, hqu⟩ := ha
      exact hnone q hq (hqu.trans hid)
  . intro hstatus
    rcases registerProvider_cases lib w req with ⟨_, hno⟩ | ⟨provider, hnone, hid, hrun⟩
    . exact absurd hstatus hno
    . rw [hrun]
      exact Exists.intro provider (And.intro rfl (And.intro rfl (And.intro hid
        (And.intro rfl hnone))))

/-- Claim C14 at a second registration by `bob`, who has a provider profile, and at a
first registration by `alice`. -/
theorem register_only_once_witness :
    (exists p, p ∈ sampleWorld.providers /\ p.userId = bob._id) /\
    sampleLib.queryError bob._id = none /\
    (sampleWorld.providers.map Provider.userId).Nodup /\
    (registerProvider sampleLib sampleWorld
      (RegisterRequest.mk alice sampleRegisterBody none)).2.status = 201 /\
    registerProvider sampleLib sampleWorld (RegisterRequest.mk bob sampleRegisterBody none) =
      (sampleWorld,
        ProviderResponse.mk 400 false "You have already registered as a provider." none) /\
    ((registerProvider sampleLib sampleWorld
      (RegisterRequest.mk alice sampleRegisterBody none)).1.providers.map
        Provider.userId).Nodup /\
    (exists provider,
      (registerProvider sampleLib sampleWorld
        (RegisterRequest.mk alice sampleRegisterBody none)).1.providers =
          sampleWorld.providers ++ [provider] /\
      (registerProvider sampleLib sampleWorld
        (RegisterRequest.mk alice sampleRegisterBody none)).1.tasks = sampleWorld.tasks /\
      provider.userId = alice.id /\
      (registerProvider sampleLib sampleWorld
        (RegisterRequest.mk alice sampleRegisterBody none)).2.provider = some provider /\
      (forall p, p ∈ sampleWorld.providers -> Not (p.userId = alice.id))) :=
  have hex : exists p, p ∈ sampleWorld.providers /\ p.userId = bob._id :=
    Exists.intro sampleProvider (And.intro (by decide) (by decide))
  And.intro hex (And.intro rfl (And.intro (by decide) (And.intro (by decide) (And.intro
    ((register_only_once sampleLib sampleWorld
      (RegisterRequest.mk bob sampleRegisterBody none)).1 hex rfl)
    (And.intro
      ((register_only_once sampleLib sampleWorld
        (RegisterRequest.mk alice sampleRegisterBody none)).2.1 (by decide))
      ((register_only_once sampleLib sampleWorld
        (RegisterRequest.mk alice sampleRegisterBody none)).2.2 (by decide)))))))

end WorkIsReady
